import Mathlib

/-!
Verification development for the realestate-search backend
(`backend/app/main.py`, `backend/app/url_resolver.py`,
`backend/app/search/{resolve_service,suggest_service,normalize}.py`).

The Python code is shallowly embedded: pure helpers become Lean functions,
the Elasticsearch index and the redirect registry become explicit
environment records of functions, floats become rationals, and fallible
values become `Option`.  Python regular expressions are embedded through a
small backtracking engine (`RE` / `runs`) whose outcome order mirrors
Python's `re` preference order (leftmost start position, left alternative
first, greedy/lazy repetition order), so `re.search`, `re.match` and
`re.sub` are reproduced faithfully on the patterns the code uses.
-/

set_option maxRecDepth 10000

/-! ## Python string primitives -/

/-- Python `\s` / `str.strip()` whitespace (ASCII range, as used by the code). -/
def pyIsSpace (c : Char) : Bool :=
  c = ' ' || c = '\t' || c = '\n' || c = '\r' || c = '\x0b' || c = '\x0c'

/-- Python `str.lower()` on one character (ASCII; the queries handled here are ASCII). -/
def pyLowerChar (c : Char) : Char :=
  if 'A' ≤ c && c ≤ 'Z' then Char.ofNat (c.toNat + 32) else c

/-- Python `str.lower()`. -/
def pyLower (s : String) : String :=
  String.mk (s.data.map pyLowerChar)

/-- Python `str.strip()` (no arguments: strip whitespace from both ends). -/
def pyStripList (l : List Char) : List Char :=
  ((l.dropWhile pyIsSpace).reverse.dropWhile pyIsSpace).reverse

/-- Python `str.strip()` on `String`. -/
def pyStrip (s : String) : String :=
  String.mk (pyStripList s.data)

/-- `re.sub(r"\s+", " ", s)`: replace each maximal whitespace run by one
space (a whitespace character is dropped when another one follows, and
otherwise emitted as `' '`). -/
def collapseWsAux : List Char → List Char
  | [] => []
  | [c] => if pyIsSpace c then [' '] else [c]
  | c :: d :: t =>
    if pyIsSpace c then
      if pyIsSpace d then collapseWsAux (d :: t) else ' ' :: collapseWsAux (d :: t)
    else c :: collapseWsAux (d :: t)

/-- `re.sub(r"\s+", " ", s)` on `String`. -/
def collapseWs (s : String) : String :=
  String.mk (collapseWsAux s.data)

/-- `normalize_q` from `backend/app/main.py`:
`"" if not q else re.sub(r"\s+", " ", q.strip()).lower()`. -/
def normalize_q (q : Option String) : String :=
  match q with
  | none => ""
  | some q => if q = "" then "" else pyLower (collapseWs (pyStrip q))

/-- `normalize_query` from `backend/app/search/normalize.py`:
strip then collapse whitespace; no lower-casing. -/
def normalize_query (q : String) : String :=
  collapseWs (pyStrip q)

/-! ## A small backtracking regex engine

Patterns are written as an explicit AST; `runs` enumerates the possible
matches of a pattern at a fixed position in Python `re`'s preference order.
Capturing groups are recorded by index; grouping that the source patterns
only use for bracketing (including `(?:...)`) is represented by plain AST
structure since it cannot change the set or order of matches. -/

inductive RE where
  /-- matches the empty string -/
  | eps : RE
  /-- a literal character -/
  | chr : Char → RE
  /-- a character class -/
  | cls : (Char → Bool) → RE
  /-- concatenation -/
  | seq : RE → RE → RE
  /-- alternation, left alternative preferred -/
  | alt : RE → RE → RE
  /-- greedy Kleene star `*` -/
  | star : RE → RE
  /-- lazy Kleene star `*?` -/
  | lazyStar : RE → RE
  /-- greedy bounded repetition `{0,n}` -/
  | repMax : Nat → RE → RE
  /-- capturing group with index -/
  | grp : Nat → RE → RE
  /-- word boundary `\b` -/
  | wb : RE
  /-- start of string `^` -/
  | bos : RE
  /-- end of string `$` (end, or just before a final newline) -/
  | eos : RE

/-- greedy `+` -/
def RE.plus (r : RE) : RE := .seq r (.star r)

/-- lazy `+?` -/
def RE.lazyPlus (r : RE) : RE := .seq r (.lazyStar r)

/-- greedy `?` -/
def RE.opt (r : RE) : RE := .alt r .eps

/-- a literal string -/
def RE.lit (s : String) : RE :=
  s.data.foldr (fun c r => .seq (.chr c) r) .eps

/-- ordered alternation over a list of literal words (empty list never matches) -/
def RE.words : List String → RE
  | [] => .cls fun _ => false
  | [w] => .lit w
  | w :: ws => .alt (.lit w) (RE.words ws)

/-- Python `\w` (ASCII part, which is all the normalized queries contain). -/
def isWordChar (c : Char) : Bool :=
  c.isAlpha || c.isDigit || c = '_'

/-- Captured groups: later entries shadow earlier ones for the same index. -/
abbrev Caps := List (Nat × List Char)

def lookupCap (caps : Caps) (i : Nat) : Option (List Char) :=
  match caps with
  | [] => none
  | (j, v) :: t => if j = i then some v else lookupCap t i

/-- word-boundary test between the consumed (reversed) prefix and the rest -/
def atBoundary (pre s : List Char) : Bool :=
  let l := match pre with | [] => false | c :: _ => isWordChar c
  let r := match s with | [] => false | c :: _ => isWordChar c
  l != r

/-- `$` matches at the end of the string or just before a final newline. -/
def atEos (s : List Char) : Bool :=
  match s with
  | [] => true
  | ['\n'] => true
  | _ => false

/-- Bounded greedy star: `starE n r` behaves like `r*` provided `r` cannot
iterate more than `n` times (every starred subpattern below consumes at
least one character per iteration, so `n = length + 1` is always enough).
Iterating is preferred over stopping, as for Python's greedy `*`. -/
def starE : Nat → RE → RE
  | 0, _ => .eps
  | f + 1, r => .alt (.seq r (starE f r)) .eps

/-- Bounded lazy star: stopping is preferred over iterating (`*?`). -/
def lazyE : Nat → RE → RE
  | 0, _ => .eps
  | f + 1, r => .alt .eps (.seq r (lazyE f r))

/-- Replace every repetition by its bounded expansion (`fuel` bounds the
unbounded stars; `{0,n}` uses its own bound `n`). -/
def expand (fuel : Nat) : RE → RE
  | .star r => starE fuel (expand fuel r)
  | .lazyStar r => lazyE fuel (expand fuel r)
  | .repMax n r => starE n (expand fuel r)
  | .seq a b => .seq (expand fuel a) (expand fuel b)
  | .alt a b => .alt (expand fuel a) (expand fuel b)
  | .grp i r => .grp i (expand fuel r)
  | .eps => .eps
  | .chr c => .chr c
  | .cls f => .cls f
  | .wb => .wb
  | .bos => .bos
  | .eos => .eos

/-- All ways an expanded (repetition-free) pattern can match starting at the
position described by (`pre` = reversed consumed prefix, `s` = rest), in
Python preference order.  Each outcome is `(pre', s', caps')` after the
match.  The repetition constructors are eliminated by `expand` and yield
no outcome here. -/
def runsE (r : RE) (pre s : List Char) (caps : Caps) :
    List (List Char × List Char × Caps) :=
  match r with
  | .eps => [(pre, s, caps)]
  | .chr c =>
    match s with
    | [] => []
    | a :: t => if a = c then [(a :: pre, t, caps)] else []
  | .cls f =>
    match s with
    | [] => []
    | a :: t => if f a then [(a :: pre, t, caps)] else []
  | .seq a b =>
    (runsE a pre s caps).flatMap fun o => runsE b o.1 o.2.1 o.2.2
  | .alt a b => runsE a pre s caps ++ runsE b pre s caps
  | .star _ => []
  | .lazyStar _ => []
  | .repMax _ _ => []
  | .grp i a =>
    (runsE a pre s caps).map fun o =>
      (o.1, o.2.1, (i, (o.1.take (o.1.length - pre.length)).reverse) :: o.2.2)
  | .wb => if atBoundary pre s then [(pre, s, caps)] else []
  | .bos => if pre = [] then [(pre, s, caps)] else []
  | .eos => if atEos s then [(pre, s, caps)] else []

/-- One match attempt anchored at the current position (Python `re.match`
when `pre = []`): the first outcome in preference order. -/
def matchHere (r : RE) (pre s : List Char) :
    Option (List Char × List Char × Caps) :=
  (runsE (expand (s.length + 1) r) pre s []).head?

/-- `re.search`: try each start position left to right; returns
`(preAtStart, matched, rest, caps)` for the first position that matches. -/
def searchAux (r : RE) (pre s : List Char) :
    Option (List Char × List Char × List Char × Caps) :=
  match matchHere r pre s with
  | some (p', s', caps) =>
    some (pre, (p'.take (p'.length - pre.length)).reverse, s', caps)
  | none =>
    match s with
    | [] => none
    | c :: t => searchAux r (c :: pre) t

/-- `bool(re.search(r, s))` -/
def reTest (r : RE) (s : String) : Bool :=
  (searchAux r [] s.data).isSome

/-- `m = re.search(r, s); m.group(i) if m else None` (an unmatched optional
group also yields `None`). -/
def reGroup (r : RE) (s : String) (i : Nat) : Option String :=
  match searchAux r [] s.data with
  | none => none
  | some (_, _, _, caps) => (lookupCap caps i).map String.mk

/-- `bool(re.match(r, s))` -/
def reMatch (r : RE) (s : String) : Bool :=
  (matchHere r [] s.data).isSome

/-- `re.sub(r, repl, s)` for a constant replacement string (the only form the
code uses).  One fuel unit is spent per step; every step consumes at least
one character (no pattern below can match the empty string, and an empty
match falls back to copying one character), so `s.length + 1` fuel covers
the whole input. -/
def subAllGo (r : RE) (repl : List Char) : Nat → List Char → List Char → List Char → List Char
  | 0, _, s, acc => acc.reverse ++ s
  | fuel + 1, pre, s, acc =>
    match matchHere r pre s with
    | some (p', s', _) =>
      if s'.length < s.length then
        subAllGo r repl fuel p' s' (repl.reverse ++ acc)
      else
        match s with
        | [] => acc.reverse
        | c :: t => subAllGo r repl fuel (c :: pre) t (c :: acc)
    | none =>
      match s with
      | [] => acc.reverse
      | c :: t => subAllGo r repl fuel (c :: pre) t (c :: acc)

/-- `re.sub(r, repl, s)` on `String`. -/
def subAll (r : RE) (repl : String) (s : String) : String :=
  String.mk (subAllGo r repl.data (s.data.length + 1) [] s.data [])

/-! ## The regex patterns of `parse_query` (`backend/app/main.py`)

Each definition transcribes one pattern literally, in the alternation
order of the source.  `(?:...)` and unused capturing parentheses are
represented by plain AST structure (they cannot affect match extent or
order); `grp i` is used exactly where the code reads `m.group(i)`. -/

/-- `\s+` -/
def wsPlus : RE := RE.plus (.cls pyIsSpace)

/-- `\s*` -/
def wsStar : RE := RE.star (.cls pyIsSpace)

/-- a word followed by `s?` -/
def RE.wordS (w : String) : RE := .seq (.lit w) (.opt (.chr 's'))

/-- `[a-z0-9&.\- ]` -/
def bCls : Char → Bool := fun c =>
  c.isLower || c.isDigit || c = '&' || c = '.' || c = '-' || c = ' '

/-- `[a-z0-9 \-]` -/
def locCls : Char → Bool := fun c =>
  c.isLower || c.isDigit || c = ' ' || c = '-'

/-- `[1-6]` -/
def digit16 : Char → Bool := fun c => '1' ≤ c && c ≤ '6'

/-- `\b(property\s+rates?|rates?|price\s+trends?|trends?)\b` -/
def rate_re : RE :=
  .seq .wb (.seq
    (.alt (.seq (.lit "property") (.seq wsPlus (RE.wordS "rate")))
      (.alt (RE.wordS "rate")
        (.alt (.seq (.lit "price") (.seq wsPlus (RE.wordS "trend")))
          (RE.wordS "trend"))))
    .wb)

/-- `\b(locality\s+overview|overview|about|guide)\b` -/
def overview_re : RE :=
  .seq .wb (.seq
    (.alt (.seq (.lit "locality") (.seq wsPlus (.lit "overview")))
      (.alt (.lit "overview") (.alt (.lit "about") (.lit "guide"))))
    .wb)

/-- `\brent\b|\brental\b|\btenant\b` -/
def rent_re : RE :=
  .alt (.seq .wb (.seq (.lit "rent") .wb))
    (.alt (.seq .wb (.seq (.lit "rental") .wb))
      (.seq .wb (.seq (.lit "tenant") .wb)))

/-- `\bbuy\b|\bresale\b|\bsale\b|\bfor sale\b` -/
def buy_re : RE :=
  .alt (.seq .wb (.seq (.lit "buy") .wb))
    (.alt (.seq .wb (.seq (.lit "resale") .wb))
      (.alt (.seq .wb (.seq (.lit "sale") .wb))
        (.seq .wb (.seq (.lit "for sale") .wb))))

/-- `\b([1-6])\s*bhk\b` -/
def bhk_sp_re : RE :=
  .seq .wb (.seq (.grp 1 (.cls digit16)) (.seq wsStar (.seq (.lit "bhk") .wb)))

/-- `\b([1-6])bhk\b` -/
def bhk_ns_re : RE :=
  .seq .wb (.seq (.grp 1 (.cls digit16)) (.seq (.lit "bhk") .wb))

/-- `\b(ready\s*to\s*move|rtm|ready)\b` -/
def ready_re : RE :=
  .seq .wb (.seq
    (.alt (.seq (.lit "ready") (.seq wsStar (.seq (.lit "to") (.seq wsStar (.lit "move")))))
      (.alt (.lit "rtm") (.lit "ready")))
    .wb)

/-- `\b(under\s*construction|uc)\b` -/
def uc_re : RE :=
  .seq .wb (.seq
    (.alt (.seq (.lit "under") (.seq wsStar (.lit "construction"))) (.lit "uc"))
    .wb)

/-- `\b(builder\s*floor|floor)\b` -/
def type_builder_floor_re : RE :=
  .seq .wb (.seq
    (.alt (.seq (.lit "builder") (.seq wsStar (.lit "floor"))) (.lit "floor")) .wb)

/-- `\b(apartment|flat)\b` -/
def type_apartment_re : RE :=
  .seq .wb (.seq (.alt (.lit "apartment") (.lit "flat")) .wb)

/-- `\b(plot|land)\b` -/
def type_plot_re : RE :=
  .seq .wb (.seq (.alt (.lit "plot") (.lit "land")) .wb)

/-- `\b(villa)\b` -/
def type_villa_re : RE := .seq .wb (.seq (.lit "villa") .wb)

/-- `\b(independent\s*house|house)\b` -/
def type_ind_house_re : RE :=
  .seq .wb (.seq
    (.alt (.seq (.lit "independent") (.seq wsStar (.lit "house"))) (.lit "house")) .wb)

/-- `\b(office)\b` -/
def type_office_re : RE := .seq .wb (.seq (.lit "office") .wb)

/-- `\b(shop|retail)\b` -/
def type_shop_re : RE :=
  .seq .wb (.seq (.alt (.lit "shop") (.lit "retail")) .wb)

/-- `projects?|properties?|listings?|homes?` -/
def listingWords_re : RE :=
  .alt (RE.wordS "project")
    (.alt (RE.wordS "propertie") (.alt (RE.wordS "listing") (RE.wordS "home")))

/-- `^([a-z0-9&.\- ]+?)\s+(?:projects?|properties?|listings?|homes?)\b` -/
def builder1_re : RE :=
  .seq .bos (.seq (.grp 1 (RE.lazyPlus (.cls bCls)))
    (.seq wsPlus (.seq listingWords_re .wb)))

/-- `(?:\s+\b(in|near|at)\b|$)` -/
def inNearAtEnd_re : RE :=
  .alt (.seq wsPlus (.seq .wb (.seq (.alt (.lit "in") (.alt (.lit "near") (.lit "at"))) .wb)))
    .eos

/-- `\b(?:projects?|properties?|listings?|homes?)\s+(?:by|from)\s+([a-z0-9&.\- ]+?)(?:\s+\b(in|near|at)\b|$)` -/
def builder2_re : RE :=
  .seq .wb (.seq listingWords_re (.seq wsPlus
    (.seq (.alt (.lit "by") (.lit "from")) (.seq wsPlus
      (.seq (.grp 1 (RE.lazyPlus (.cls bCls))) inNearAtEnd_re)))))

/-- `\bbuilder\s+([a-z0-9&.\- ]+?)(?:\s+\b(in|near|at)\b|$)` -/
def builder3_re : RE :=
  .seq .wb (.seq (.lit "builder") (.seq wsPlus
    (.seq (.grp 1 (RE.lazyPlus (.cls bCls))) inNearAtEnd_re)))

/-- one `\s+\bWORD\b` terminator alternative of the locality pattern -/
def termAlt (w : RE) : RE := .seq wsPlus (.seq .wb (.seq w .wb))

/-- `\b(?:in|near|at)\s+([a-z0-9 \-]+?)(?:\s+\bunder\b|...|\s+\boverview\b|$)` -/
def locality_re : RE :=
  .seq .wb (.seq (.alt (.lit "in") (.alt (.lit "near") (.lit "at")))
    (.seq wsPlus (.seq (.grp 1 (RE.lazyPlus (.cls locCls)))
      (.alt (termAlt (.lit "under"))
        (.alt (termAlt (.lit "below"))
          (.alt (termAlt (.lit "between"))
            (.alt (termAlt (.lit "for"))
              (.alt (termAlt (.lit "with"))
                (.alt (termAlt (.lit "near"))
                  (.alt (termAlt (RE.wordS "rate"))
                    (.alt (termAlt (.lit "overview")) .eos)))))))))))

/-- `([0-9]+(?:\.[0-9]+)?)` as group `i` -/
def numGrp (i : Nat) : RE :=
  .grp i (.seq (RE.plus (.cls Char.isDigit))
    (.opt (.seq (.chr '.') (RE.plus (.cls Char.isDigit)))))

/-- `cr|crore|l|lac|lakh|k` -/
def unitWords_re : RE :=
  .alt (.lit "cr") (.alt (.lit "crore")
    (.alt (.lit "l") (.alt (.lit "lac") (.alt (.lit "lakh") (.lit "k")))))

/-- `\bbetween\s+N\s*(u)?\s*(?:and|to)\s+N\s*(u)?\b` with groups 1-4 -/
def between_re : RE :=
  .seq .wb (.seq (.lit "between") (.seq wsPlus (.seq (numGrp 1)
    (.seq wsStar (.seq (.opt (.grp 2 unitWords_re))
      (.seq wsStar (.seq (.alt (.lit "and") (.lit "to"))
        (.seq wsPlus (.seq (numGrp 3)
          (.seq wsStar (.seq (.opt (.grp 4 unitWords_re)) .wb)))))))))))

/-- `\b(?:under|below|upto|up\s*to|less\s*than|max)\s+N\s*(u)\b` -/
def under_re : RE :=
  .seq .wb (.seq
    (.alt (.lit "under") (.alt (.lit "below") (.alt (.lit "upto")
      (.alt (.seq (.lit "up") (.seq wsStar (.lit "to")))
        (.alt (.seq (.lit "less") (.seq wsStar (.lit "than"))) (.lit "max"))))))
    (.seq wsPlus (.seq (numGrp 1) (.seq wsStar (.seq (.grp 2 unitWords_re) .wb)))))

/-- `\b(?:above|over|more\s*than|min)\s+N\s*(u)\b` -/
def above_re : RE :=
  .seq .wb (.seq
    (.alt (.lit "above") (.alt (.lit "over")
      (.alt (.seq (.lit "more") (.seq wsStar (.lit "than"))) (.lit "min"))))
    (.seq wsPlus (.seq (numGrp 1) (.seq wsStar (.seq (.grp 2 unitWords_re) .wb)))))

/-- `\brent\b|\brental\b|\bper\s*month\b|\bpm\b` (rent-context vocabulary) -/
def rentctx_re : RE :=
  .alt (.seq .wb (.seq (.lit "rent") .wb))
    (.alt (.seq .wb (.seq (.lit "rental") .wb))
      (.alt (.seq .wb (.seq (.lit "per") (.seq wsStar (.seq (.lit "month") .wb))))
        (.seq .wb (.seq (.lit "pm") .wb))))

/-- `\b(?:buy|resale|sale|rent|rental|tenant)\b` (cleanup) -/
def subIntent_re : RE :=
  .seq .wb (.seq (RE.words ["buy", "resale", "sale", "rent", "rental", "tenant"]) .wb)

/-- `\b(ready\s*to\s*move|rtm|ready|under\s*construction|uc)\b` (cleanup) -/
def subStatus_re : RE :=
  .seq .wb (.seq
    (.alt (.seq (.lit "ready") (.seq wsStar (.seq (.lit "to") (.seq wsStar (.lit "move")))))
      (.alt (.lit "rtm") (.alt (.lit "ready")
        (.alt (.seq (.lit "under") (.seq wsStar (.lit "construction"))) (.lit "uc")))))
    .wb)

/-- `\b(builder\s*floor|floor|apartment|flat|plot|land|villa|independent\s*house|house|office|shop|retail)\b` -/
def subType_re : RE :=
  .seq .wb (.seq
    (.alt (.seq (.lit "builder") (.seq wsStar (.lit "floor")))
      (.alt (.lit "floor") (.alt (.lit "apartment") (.alt (.lit "flat")
        (.alt (.lit "plot") (.alt (.lit "land") (.alt (.lit "villa")
          (.alt (.seq (.lit "independent") (.seq wsStar (.lit "house")))
            (.alt (.lit "house") (.alt (.lit "office")
              (.alt (.lit "shop") (.lit "retail"))))))))))))
    .wb)

/-- `\b(projects?|properties?|listings?|homes?|developer|developers|builder|builders|by|from)\b` -/
def subListing_re : RE :=
  .seq .wb (.seq
    (.alt (RE.wordS "project") (.alt (RE.wordS "propertie")
      (.alt (RE.wordS "listing") (.alt (RE.wordS "home")
        (.alt (.lit "developer") (.alt (.lit "developers")
          (.alt (.lit "builder") (.alt (.lit "builders")
            (.alt (.lit "by") (.lit "from"))))))))))
    .wb)

/-- `\bbetween\b[\s\S]{0,40}\b(?:cr|crore|l|lac|lakh|k)\b` (cleanup) -/
def subBetween_re : RE :=
  .seq .wb (.seq (.lit "between") (.seq .wb (.seq (.repMax 40 (.cls fun _ => true))
    (.seq .wb (.seq unitWords_re .wb)))))

/-- `\b(?:under|...|min)\b[\s\S]{0,20}\b(?:cr|crore|l|lac|lakh|k)\b` (cleanup) -/
def subBound_re : RE :=
  .seq .wb (.seq
    (.alt (.lit "under") (.alt (.lit "below") (.alt (.lit "upto")
      (.alt (.seq (.lit "up") (.seq wsStar (.lit "to")))
        (.alt (.seq (.lit "less") (.seq wsStar (.lit "than")))
          (.alt (.lit "max") (.alt (.lit "above") (.alt (.lit "over")
            (.alt (.seq (.lit "more") (.seq wsStar (.lit "than"))) (.lit "min"))))))))))
    (.seq .wb (.seq (.repMax 20 (.cls fun _ => true)) (.seq .wb (.seq unitWords_re .wb)))))

/-- `\b(in|near|at|for|with|without|and|to)\b` (stopword cleanup) -/
def subStop_re : RE :=
  .seq .wb (.seq (RE.words ["in", "near", "at", "for", "with", "without", "and", "to"]) .wb)

/-! ## `parse_query` (`backend/app/main.py`) -/

/-- The `ParseResponse` pydantic model (Floats as `ℚ` do not occur; prices
are `int`/INR).  `ok`/`currency` keep their defaults. -/
structure ParseResponse where
  q : String
  intent : Option String := none
  bhk : Option Nat := none
  locality_hint : Option String := none
  builder_hint : Option String := none
  page_intent : Option String := none
  location_query : Option String := none
  property_type : Option String := none
  status : Option String := none
  min_price : Option Int := none
  max_price : Option Int := none
  min_rent : Option Int := none
  max_rent : Option Int := none
  currency : String := "INR"
  ok : Bool := true
deriving DecidableEq, Repr

/-- Python string truthiness of an `Optional[str]`: `None` and `""` are falsy. -/
def optTruthy (o : Option String) : Bool :=
  match o with
  | none => false
  | some s => s ≠ ""

/-- digits of a decimal literal to `Nat` -/
def digitsToNat (l : List Char) : Nat :=
  l.foldl (fun a c => a * 10 + (c.toNat - 48)) 0

/-- `float(m.group(..))` for the `[0-9]+(\.[0-9]+)?` literals, as a rational -/
def parseQnum (s : String) : ℚ :=
  let ip := s.data.takeWhile (· ≠ '.')
  let fp := (s.data.dropWhile (· ≠ '.')).drop 1
  (digitsToNat ip : ℚ) + (digitsToNat fp : ℚ) / ((10 : ℚ) ^ fp.length)

/-- `money_to_rupees` from `backend/app/main.py`; `int()` truncation equals
`⌊·⌋` on the non-negative amounts produced by the parser. -/
def money_to_rupees (num : ℚ) (unit : String) : Int :=
  let u := pyLower unit
  if u = "k" then ⌊num * 1000⌋
  else if u = "l" ∨ u = "lac" ∨ u = "lakh" then ⌊num * 100000⌋
  else if u = "cr" ∨ u = "crore" then ⌊num * 10000000⌋
  else ⌊num⌋

/-- the four budget fields threaded through `_apply_budget` -/
structure Budgets where
  min_price : Option Int := none
  max_price : Option Int := none
  min_rent : Option Int := none
  max_rent : Option Int := none
deriving DecidableEq, Repr

/-- `_apply_budget` (closure in `parse_query`): route the bounds to the rent
pair in rent context, otherwise to the price pair; `None` keeps the old value. -/
def applyBudget (rent_context : Bool) (min_v max_v : Option Int) (b : Budgets) : Budgets :=
  if rent_context then
    { b with
      min_rent := match min_v with | some v => some v | none => b.min_rent
      max_rent := match max_v with | some v => some v | none => b.max_rent }
  else
    { b with
      min_price := match min_v with | some v => some v | none => b.min_price
      max_price := match max_v with | some v => some v | none => b.max_price }

/-- the captures of the first match of `r` in `s`, if any -/
def reCaps (r : RE) (s : String) : Option Caps :=
  (searchAux r [] s.data).map fun o => o.2.2.2

/-- `(m.group(i) or "")` for a match given by its captures -/
def capStr (caps : Caps) (i : Nat) : String :=
  String.mk ((lookupCap caps i).getD [])

/-- the budget block of `parse_query`: the three patterns applied in order
with their `is None` guards. -/
def budgetPipeline (rent_context : Bool) (s : String) : Budgets :=
  let b0 : Budgets := {}
  -- between X and Y
  let b1 :=
    match reCaps between_re s with
    | some caps =>
      let v1 := parseQnum (capStr caps 1)
      let u1 := let u := pyLower (capStr caps 2); if u = "" then "l" else u
      let v2 := parseQnum (capStr caps 3)
      let u2 := let u := pyLower (capStr caps 4); if u = "" then u1 else u
      applyBudget rent_context (some (money_to_rupees v1 u1)) (some (money_to_rupees v2 u2)) b0
    | none => b0
  -- under / below / upto (only if no max bound yet)
  let b2 :=
    match reCaps under_re s with
    | some caps =>
      if b1.max_price = none ∧ b1.max_rent = none then
        applyBudget rent_context none (some (money_to_rupees (parseQnum (capStr caps 1)) (capStr caps 2))) b1
      else b1
    | none => b1
  -- above / over / more than (only if no min bound yet)
  match reCaps above_re s with
  | some caps =>
    if b2.min_price = none ∧ b2.min_rent = none then
      applyBudget rent_context (some (money_to_rupees (parseQnum (capStr caps 1)) (capStr caps 2))) none b2
    else b2
  | none => b2

/-- `parse_query` from `backend/app/main.py`, section by section in source
order.  Regex tests/captures go through the engine above. -/
def parse_query (q : String) : ParseResponse :=
  let s := normalize_q (some q)
  -- page intent
  let page_intent0 : Option String :=
    if reTest rate_re s then some "rate_page"
    else if reTest overview_re s then some "locality_overview"
    else none
  -- buy vs rent intent
  let intent : Option String :=
    if reTest rent_re s then some "rent"
    else if reTest buy_re s then some "buy"
    else none
  -- bhk
  let bhk : Option Nat :=
    match reGroup bhk_sp_re s 1 with
    | some d => some (digitsToNat d.data)
    | none =>
      match reGroup bhk_ns_re s 1 with
      | some d => some (digitsToNat d.data)
      | none => none
  -- status
  let status : Option String :=
    if reTest ready_re s then some "ready"
    else if reTest uc_re s then some "under_construction"
    else none
  -- property type: first matching entry of type_map wins
  let property_type : Option String :=
    if reTest type_builder_floor_re s then some "builder_floor"
    else if reTest type_apartment_re s then some "apartment"
    else if reTest type_plot_re s then some "plot"
    else if reTest type_villa_re s then some "villa"
    else if reTest type_ind_house_re s then some "independent_house"
    else if reTest type_office_re s then some "office"
    else if reTest type_shop_re s then some "shop"
    else none
  -- builder hint: three patterns, each tried only while the hint is falsy
  let bh1 : Option String := (reGroup builder1_re s 1).map pyStrip
  let bh2 : Option String :=
    if optTruthy bh1 then bh1 else
      match (reGroup builder2_re s 1).map pyStrip with
      | some v => some v
      | none => bh1
  let builder_hint : Option String :=
    if optTruthy bh2 then bh2 else
      match (reGroup builder3_re s 1).map pyStrip with
      | some v => some v
      | none => bh2
  -- locality hint
  let locality_hint : Option String := (reGroup locality_re s 1).map pyStrip
  -- budgets
  let rent_context : Bool := reTest rentctx_re s || intent = some "rent"
  let b := budgetPipeline rent_context s
  -- listing intent fallback
  let page_intent : Option String :=
    if page_intent0 = none ∧
        (bhk.isSome || status.isSome || property_type.isSome || b.min_price.isSome ||
          b.max_price.isSome || b.min_rent.isSome || b.max_rent.isSome || intent.isSome) then
      some "listing"
    else page_intent0
  -- location-ish remainder
  let loc := s
  let loc := subAll rate_re " " loc
  let loc := subAll overview_re " " loc
  let loc := subAll bhk_sp_re " " loc
  let loc := subAll subIntent_re " " loc
  let loc := subAll subStatus_re " " loc
  let loc := subAll subType_re " " loc
  let loc := subAll subListing_re " " loc
  let loc :=
    if optTruthy builder_hint then
      subAll (.seq .wb (.seq (RE.lit (builder_hint.getD "")) .wb)) " " loc
    else loc
  let loc := subAll subBetween_re " " loc
  let loc := subAll subBound_re " " loc
  let loc := subAll subStop_re " " loc
  let loc := pyStrip (collapseWs loc)
  let location_query : Option String :=
    if optTruthy locality_hint then locality_hint
    else if loc ≠ "" then some loc
    else none
  { q := s
    intent := intent
    bhk := bhk
    locality_hint := locality_hint
    builder_hint := builder_hint
    page_intent := page_intent
    location_query := location_query
    property_type := property_type
    status := status
    min_price := b.min_price
    max_price := b.max_price
    min_rent := b.min_rent
    max_rent := b.max_rent }

/-- `is_constraint_heavy` from `backend/app/main.py`: parses the query and
tests the listed fields (note: `builder_hint` is not among them). -/
def is_constraint_heavy (q : String) : Bool :=
  let parsed := parse_query q
  (parsed.intent.isSome || parsed.bhk.isSome || parsed.property_type.isSome ||
    parsed.status.isSome || parsed.min_price.isSome || parsed.max_price.isSome ||
    parsed.min_rent.isSome || parsed.max_rent.isSome) ||
  parsed.page_intent = some "listing"

/-! ## URL construction (`backend/app/main.py`) -/

/-- upper-case hex digit -/
def hexDigit (n : Nat) : Char :=
  if n < 10 then Char.ofNat (48 + n) else Char.ofNat (55 + n)

/-- UTF-8 bytes of a code point -/
def utf8Bytes (n : Nat) : List Nat :=
  if n < 0x80 then [n]
  else if n < 0x800 then [0xC0 + n / 64, 0x80 + n % 64]
  else if n < 0x10000 then [0xE0 + n / 4096, 0x80 + n / 64 % 64, 0x80 + n % 64]
  else [0xF0 + n / 262144, 0x80 + n / 4096 % 64, 0x80 + n / 64 % 64, 0x80 + n % 64]

/-- `urllib.parse.quote_plus`: keep `[A-Za-z0-9_.~-]`, space becomes `+`,
anything else is percent-encoded per UTF-8 byte. -/
def quote_plus (s : String) : String :=
  String.mk (s.data.flatMap fun c =>
    if c.isAlphanum || c = '_' || c = '.' || c = '-' || c = '~' then [c]
    else if c = ' ' then ['+']
    else (utf8Bytes c.toNat).flatMap fun b => ['%', hexDigit (b / 16), hexDigit (b % 16)])

/-- `urllib.parse.urlencode` on an ordered parameter list -/
def urlencodePairs (ps : List (String × String)) : String :=
  String.intercalate "&" (ps.map fun p => quote_plus p.1 ++ "=" ++ quote_plus p.2)

/-- `build_serp_url` from `backend/app/main.py` (each part appended only when
the argument is truthy). -/
def build_serp_url (q : String) (city_id qid context_url : Option String) : String :=
  let base := "/search?q=" ++ quote_plus q
  let base := if optTruthy city_id then base ++ "&city_id=" ++ quote_plus (city_id.getD "") else base
  let base := if optTruthy qid then base ++ "&qid=" ++ quote_plus (qid.getD "") else base
  if optTruthy context_url then base ++ "&context_url=" ++ quote_plus (context_url.getD "") else base

/-- does `sub` occur as a contiguous sublist of the second argument? -/
def containsSub (sub : List Char) : List Char → Bool
  | [] => sub.isEmpty
  | c :: t => sub.isPrefixOf (c :: t) || containsSub sub t

/-- `"sub" in s` -/
def strContains (s sub : String) : Bool :=
  containsSub sub.data s.data

/-- `str.rstrip("/")` -/
def rstripSlash (s : String) : String :=
  String.mk ((s.data.reverse.dropWhile (· = '/')).reverse)

/-- the entity types routed to the `locations` bucket / listing segments -/
def locationTypes : List String :=
  ["city", "micromarket", "locality", "listing_page", "locality_overview"]

/-- `EntityOut` from `backend/app/main.py` -/
structure EntityOut where
  id : String
  entity_type : String
  name : String
  city : String := ""
  city_id : String := ""
  parent_name : String := ""
  canonical_url : String
  score : Option ℚ := none
  popularity_score : Option ℚ := none
deriving DecidableEq, Repr

/-- the filter parameters serialized by `build_listing_url`, in insertion
order (`bhk`, `min_price`, `max_price`, `min_rent`, `max_rent`, `status`,
`property_type`; the latter two only when truthy) -/
def listingParams (parsed : ParseResponse) : List (String × String) :=
  (match parsed.bhk with | some n => [("bhk", toString n)] | none => []) ++
  (match parsed.min_price with | some v => [("min_price", toString v)] | none => []) ++
  (match parsed.max_price with | some v => [("max_price", toString v)] | none => []) ++
  (match parsed.min_rent with | some v => [("min_rent", toString v)] | none => []) ++
  (match parsed.max_rent with | some v => [("max_rent", toString v)] | none => []) ++
  (match parsed.status with | some st => if st ≠ "" then [("status", st)] else [] | none => []) ++
  (match parsed.property_type with | some pt => if pt ≠ "" then [("property_type", pt)] else [] | none => [])

/-- `build_listing_url` from `backend/app/main.py` -/
def build_listing_url (entity : EntityOut) (parsed : ParseResponse) : String :=
  let base := let b := rstripSlash entity.canonical_url; if b = "" then "/" else b
  let intent := pyLower (pyStrip (parsed.intent.getD ""))
  let segment := if intent = "rent" then "rent" else "buy"
  let base_with_intent :=
    if locationTypes.contains entity.entity_type then
      if base ≠ "/" then base ++ "/" ++ segment else "/" ++ segment
    else base
  let qs := urlencodePairs (listingParams parsed)
  base_with_intent ++ (if qs ≠ "" then "?" ++ qs else "")

/-! ## `clean_path_from_anything` (`backend/app/main.py`) -/

/-- `re.match(r"^https?://", raw, re.I)` -/
def httpSchemeMatch (s : String) : Bool :=
  pyLower (String.mk (s.data.take 7)) = "http://" ||
  pyLower (String.mk (s.data.take 8)) = "https://"

/-- index of the first `c` at position `≥ start` -/
def findFrom (l : List Char) (c : Char) (start : Nat) : Option Nat :=
  match (l.drop start).findIdx? (· = c) with
  | some i => some (start + i)
  | none => none

/-- index of the last `'/'` (0 when absent, matching `str.rfind` usage below
which is guarded by a containment check) -/
def lastSlashIdx (l : List Char) : Nat :=
  match (l.reverse.findIdx? (· = '/')) with
  | some i => l.length - 1 - i
  | none => 0

/-- `urllib.parse._splitparams`: drop `;params` from the last path segment -/
def splitParams (l : List Char) : List Char :=
  if l.contains ';' then
    if l.contains '/' then
      match findFrom l ';' (lastSlashIdx l) with
      | some i => l.take i
      | none => l
    else
      match findFrom l ';' 0 with
      | some i => l.take i
      | none => l
  else l

/-- `urlparse(s).path` for an `http(s)://` URL: skip the scheme and the
authority, stop at `?` or `#`, drop `;params`. -/
def urlparsePath (s : String) : String :=
  let after := if pyLower (String.mk (s.data.take 7)) = "http://" then s.data.drop 7 else s.data.drop 8
  let netloc := after.takeWhile fun c => ¬ (c = '/' ∨ c = '?' ∨ c = '#')
  let rest := after.drop netloc.length
  String.mk (splitParams (rest.takeWhile fun c => ¬ (c = '?' ∨ c = '#')))

/-- `re.sub(r"/{2,}", "/", path)`: collapse each run of slashes to one
(a slash is dropped when another slash follows). -/
def collapseSlashes : List Char → List Char
  | [] => []
  | [c] => [c]
  | c :: d :: t =>
    if c = '/' ∧ d = '/' then collapseSlashes (d :: t)
    else c :: collapseSlashes (d :: t)

/-- The stripped input, replaced by its URL path when it is a full
`http(s)://` URL (`clean_path_from_anything`, first phase). -/
def cleanBase (q : String) : List Char :=
  let raw := pyStripList q.data
  if httpSchemeMatch (String.mk raw) then (urlparsePath (String.mk raw)).data else raw

/-- `path.split("?", 1)[0].split("#", 1)[0].strip()` applied to the above. -/
def cleanCut (q : String) : List Char :=
  pyStripList (((cleanBase q).takeWhile (· ≠ '?')).takeWhile (· ≠ '#'))

/-- The first half of `clean_path_from_anything`: the emptiness guards of
the source in order, then a leading slash is ensured (`startswith "/"` on a
non-empty string is `head? = some '/'`). -/
def cleanPathPre (q : String) : Option (List Char) :=
  if pyStripList q.data = [] then none
  else if cleanBase q = [] then none
  else if cleanCut q = [] then none
  else some (if (cleanCut q).head? = some '/' then cleanCut q else '/' :: cleanCut q)

/-- `if len(path) > 1 and path.endswith("/"): path = path[:-1]`
(`endswith "/"` is `getLast? = some '/'`) -/
def trimSlash (l : List Char) : List Char :=
  if l.length > 1 ∧ l.getLast? = some '/' then l.dropLast else l

/-- `clean_path_from_anything` from `backend/app/main.py`: the preparation
above, then collapse multiple slashes and trim one trailing slash. -/
def clean_path_from_anything (q : String) : Option String :=
  match cleanPathPre q with
  | none => none
  | some p1 => some (String.mk (trimSlash (collapseSlashes p1)))

/-! ## The resolver (`backend/app/main.py`, `GET /search/resolve`) -/

/-- a raw Elasticsearch hit: `hit["_score"]` and `hit["_source"]` -/
structure HitSource where
  id : Option String := none
  entity_type : Option String := none
  name : Option String := none
  city : Option String := none
  city_id : Option String := none
  parent_name : Option String := none
  canonical_url : Option String := none
  popularity_score : Option ℚ := none
deriving DecidableEq, Repr

structure Hit where
  source : HitSource := {}
  score : Option ℚ := none
deriving DecidableEq, Repr

/-- `hit_to_entity` from `backend/app/main.py` -/
def hit_to_entity (hit : Hit) (for_trending : Bool) : EntityOut :=
  let src := hit.source
  { id := src.id.getD ""
    entity_type := src.entity_type.getD ""
    name := src.name.getD ""
    city := src.city.getD ""
    city_id := src.city_id.getD ""
    parent_name := src.parent_name.getD ""
    canonical_url := src.canonical_url.getD ""
    score := if for_trending then none else hit.score
    popularity_score := src.popularity_score }

/-- `ResolveResponse` from `backend/app/main.py`.  The `match` field is
renamed `matched` (Lean keyword); the non-contractual `debug` bag is
omitted. -/
structure ResolveResponse where
  action : String
  query : String
  normalized_query : String
  url : Option String := none
  matched : Option EntityOut := none
  candidates : Option (List EntityOut) := none
  reason : Option String := none
deriving DecidableEq, Repr

/-- The external collaborators of `resolve`: the redirect registry
(`REDIRECTS`), `es_search_entities` (hits only; the spelling suggestion is
unused by `resolve`) with arguments `(q, limit, city_id, entity_types)`,
and `es_lookup_by_canonical_url`. -/
structure SearchEnv where
  redirects : String → Option String
  search : String → Nat → Option String → Option (List String) → List Hit
  lookup : String → Option Hit

/-- `MIN_REDIRECT_SCORE` / `MIN_REDIRECT_GAP` (environment-configurable;
defaults `5.0` / `0.30`). -/
structure ResolverConfig where
  min_redirect_score : ℚ := 5
  min_redirect_gap : ℚ := 3 / 10
deriving DecidableEq, Repr

/-- `sorted({x for x in l if x})`, used only through its length -/
def distinctCities (l : List String) : List String :=
  (l.filter (· ≠ "")).dedup

/-- Python `a or b` on two `Optional[str]` values -/
def pyOr (a b : Option String) : Option String :=
  if optTruthy a then a else b

/-- step 2.6A/B of `resolve`: the clean-path branch.  `some d` means the
branch returned `d`; `none` means control falls through. -/
def pathDecision (env : SearchEnv) (raw_q : String) : Option ResolveResponse :=
  match clean_path_from_anything raw_q with
  | none => none
  | some clean_path =>
    if strContains clean_path "/" then
      match env.redirects clean_path with
      | some target =>
        some { action := "redirect", query := raw_q, normalized_query := raw_q,
               url := some target, reason := some "redirect_registry" }
      | none =>
        match env.lookup clean_path with
        | some hit =>
          let ent := hit_to_entity hit false
          some { action := "redirect", query := raw_q, normalized_query := raw_q,
                 url := some ent.canonical_url, matched := some ent,
                 reason := some "clean_url" }
        | none => none
    else none

/-- V1.1 page-intent routing branch of `resolve` -/
def pageIntentStep (env : SearchEnv) (parsed : ParseResponse) (raw_q : String)
    (city_id : Option String) : Option ResolveResponse :=
  if (parsed.page_intent = some "rate_page" ∨ parsed.page_intent = some "locality_overview") ∧
      optTruthy parsed.location_query then
    let lq := parsed.location_query.getD ""
    let hits := env.search lq 10 city_id (some [parsed.page_intent.getD ""])
    let ents := hits.map (hit_to_entity · false)
    let name_key := normalize_q (some lq)
    let exact := ents.filter fun e => normalize_q (some e.name) = name_key
    let candidates := if exact ≠ [] then exact else ents
    let cityHit : Option ResolveResponse :=
      if optTruthy city_id then
        match candidates.filter (fun e => e.city_id = city_id.getD "") with
        | picked :: _ =>
          some { action := "redirect", query := raw_q, normalized_query := parsed.q,
                 url := some picked.canonical_url, matched := some picked,
                 reason := some "page_intent_city_scoped" }
        | [] => none
      else none
    match cityHit with
    | some d => some d
    | none =>
      let cities := distinctCities (candidates.map (·.city_id))
      if candidates.length > 1 ∧ cities.length > 1 ∧ ¬ optTruthy city_id then
        some { action := "disambiguate", query := raw_q, normalized_query := parsed.q,
               candidates := some (candidates.take 8),
               reason := some "page_intent_same_name" }
      else
        match candidates with
        | picked :: _ =>
          some { action := "redirect", query := raw_q, normalized_query := parsed.q,
                 url := some picked.canonical_url, matched := some picked,
                 reason := some "page_intent_confident_redirect" }
        | [] => none
  else none

/-- V1.3 builder-intent routing branch of `resolve` -/
def builderStep (env : SearchEnv) (parsed : ParseResponse) (raw_q : String)
    (city_id : Option String) : Option ResolveResponse :=
  if optTruthy parsed.builder_hint then
    let bh := parsed.builder_hint.getD ""
    let bhits := env.search bh 5 none (some ["builder"])
    let builders := bhits.map (hit_to_entity · false)
    match builders with
    | [] => none
    | _ :: _ =>
      let bkey := normalize_q (some bh)
      let exact_builders := builders.filter fun b => normalize_q (some b.name) = bkey
      match (if exact_builders ≠ [] then exact_builders else builders) with
      | [] => none
      | builder_ent :: _ =>
        let location_q := pyOr parsed.locality_hint parsed.location_query
        let base_ent1 : Option EntityOut :=
          if optTruthy location_q then
            let lq := location_q.getD ""
            let lhits := env.search lq 10 city_id none
            let lents := lhits.map (hit_to_entity · false)
            let locs := lents.filter fun e => locationTypes.contains e.entity_type
            match locs with
            | [] => none
            | _ :: _ =>
              let lkey := normalize_q (some lq)
              let exact_locs := locs.filter fun e => normalize_q (some e.name) = lkey
              let candidates := if exact_locs ≠ [] then exact_locs else locs
              let fromCity : Option EntityOut :=
                if optTruthy city_id then
                  (candidates.filter (fun e => e.city_id = city_id.getD "")).head?
                else none
              match fromCity with
              | some e => some e
              | none => candidates.head?
          else none
        let base_ent : Option EntityOut :=
          match base_ent1 with
          | some e => some e
          | none =>
            if optTruthy city_id then
              let c := city_id.getD ""
              let chits := env.search c 5 none (some ["city"])
              let cents := chits.map (hit_to_entity · false)
              (cents.filter (fun e => e.id = c)).head?
            else none
        match base_ent with
        | none => none
        | some be =>
          let listing_url := build_listing_url be parsed
          let listing_url :=
            if strContains listing_url "?" then listing_url ++ "&builder_id=" ++ builder_ent.id
            else listing_url ++ "?builder_id=" ++ builder_ent.id
          some { action := "redirect", query := raw_q, normalized_query := parsed.q,
                 url := some listing_url, matched := some be,
                 reason := some "builder_intent_listing" }
  else none

/-- 2.7A constraint-heavy branch of `resolve` (taken when
`is_constraint_heavy` holds; always returns a decision). -/
def constraintDecision (env : SearchEnv) (parsed : ParseResponse) (raw_q : String)
    (city_id context_url : Option String) : ResolveResponse :=
  let location_q := pyOr parsed.locality_hint parsed.location_query
  let inner : Option ResolveResponse :=
    if optTruthy location_q then
      let lq := location_q.getD ""
      let hits := env.search lq 10 city_id none
      let entities := hits.map (hit_to_entity · false)
      let locs := entities.filter fun e => locationTypes.contains e.entity_type
      match locs with
      | [] => none
      | _ :: _ =>
        let key := normalize_q (some lq)
        let sameName := locs.filter fun e => normalize_q (some e.name) = key
        let candidates := if sameName ≠ [] then sameName else locs
        let cities := distinctCities (candidates.map (·.city_id))
        if candidates.length > 1 ∧ cities.length > 1 ∧ ¬ optTruthy city_id then
          some { action := "disambiguate", query := raw_q,
                 normalized_query := normalize_q (some raw_q),
                 candidates := some (candidates.take 10),
                 reason := some "constraint_heavy_same_name" }
        else
          let scopedHit : Option ResolveResponse :=
            if optTruthy city_id then
              match candidates.filter (fun e => e.city_id = city_id.getD "") with
              | [e] =>
                some { action := "redirect", query := raw_q,
                       normalized_query := normalize_q (some raw_q),
                       url := some (build_listing_url e parsed), matched := some e,
                       reason := some "constraint_heavy_city_scoped_listing" }
              | _ => none
            else none
          match scopedHit with
          | some d => some d
          | none =>
            match candidates with
            | [e] =>
              some { action := "redirect", query := raw_q,
                     normalized_query := normalize_q (some raw_q),
                     url := some (build_listing_url e parsed), matched := some e,
                     reason := some "constraint_heavy_listing" }
            | _ => none
    else none
  match inner with
  | some d => d
  | none =>
    { action := "serp", query := raw_q, normalized_query := raw_q,
      url := some (build_serp_url raw_q city_id none context_url),
      reason := some "constraint_heavy" }

/-- the final score-gap confidence test of `resolve` (lines 1245-1271) -/
def scoreGapDecision (cfg : ResolverConfig) (raw_q : String)
    (city_id context_url : Option String) (top_hit : Hit) (rest : List Hit) :
    ResolveResponse :=
  let top_score : ℚ := top_hit.score.getD 0
  let second_score : ℚ := match rest with | [] => 0 | h :: _ => h.score.getD 0
  let gap : ℚ :=
    if top_score ≤ 0 then 1
    else (top_score - second_score) / max top_score (1 / 1000000000)
  let matched := hit_to_entity top_hit false
  if top_score ≥ cfg.min_redirect_score ∧ gap ≥ cfg.min_redirect_gap then
    { action := "redirect", query := raw_q, normalized_query := normalize_q (some raw_q),
      url := some matched.canonical_url, matched := some matched,
      reason := some "confident_redirect" }
  else
    { action := "serp", query := raw_q, normalized_query := normalize_q (some raw_q),
      url := some (build_serp_url raw_q city_id none context_url),
      reason := some "ambiguous" }

/-- default entity resolution of `resolve` (no constraints): broad search,
same-name disambiguation, then the score-gap test -/
def normalDecision (env : SearchEnv) (cfg : ResolverConfig) (raw_q : String)
    (city_id context_url : Option String) : ResolveResponse :=
  let hits := env.search raw_q 10 city_id none
  match hits with
  | [] =>
    { action := "serp", query := raw_q, normalized_query := raw_q,
      url := some (build_serp_url raw_q city_id none context_url),
      reason := some "no_results" }
  | top_hit :: rest =>
    let entities := (top_hit :: rest).map (hit_to_entity · false)
    let top := hit_to_entity top_hit false
    let same_name := entities.filter fun e =>
      normalize_q (some e.name) = normalize_q (some top.name) ∧ e.entity_type = top.entity_type
    let cities := distinctCities (same_name.map (·.city_id))
    if same_name.length > 1 ∧ cities.length > 1 then
      let scopedHit : Option ResolveResponse :=
        if optTruthy city_id then
          match same_name.filter (fun e => e.city_id = city_id.getD "") with
          | [e] =>
            some { action := "redirect", query := raw_q,
                   normalized_query := normalize_q (some raw_q),
                   url := some e.canonical_url, matched := some e,
                   reason := some "city_scoped_same_name" }
          | _ => none
        else none
      match scopedHit with
      | some d => d
      | none =>
        { action := "disambiguate", query := raw_q,
          normalized_query := normalize_q (some raw_q),
          candidates := some (same_name.take 10), reason := some "same_name" }
    else scoreGapDecision cfg raw_q city_id context_url top_hit rest

/-- everything of `resolve` after the clean-path branch -/
def resolveParsed (env : SearchEnv) (cfg : ResolverConfig) (raw_q : String)
    (city_id context_url : Option String) : ResolveResponse :=
  let parsed := parse_query raw_q
  match pageIntentStep env parsed raw_q city_id with
  | some d => d
  | none =>
    match builderStep env parsed raw_q city_id with
    | some d => d
    | none =>
      if is_constraint_heavy raw_q then
        constraintDecision env parsed raw_q city_id context_url
      else normalDecision env cfg raw_q city_id context_url

/-- `resolve` from `backend/app/main.py` (`GET /api/v1/search/resolve`) -/
def resolve (env : SearchEnv) (cfg : ResolverConfig) (q : String)
    (city_id context_url : Option String) : ResolveResponse :=
  match pathDecision env q with
  | some d => d
  | none => resolveParsed env cfg q city_id context_url

/-! ## `extract_path_candidate` (`backend/app/url_resolver.py`) -/

/-- a hex digit's value -/
def hexVal (c : Char) : Option Nat :=
  if '0' ≤ c ∧ c ≤ '9' then some (c.toNat - 48)
  else if 'a' ≤ c ∧ c ≤ 'f' then some (c.toNat - 87)
  else if 'A' ≤ c ∧ c ≤ 'F' then some (c.toNat - 55)
  else none

/-- `urllib.parse.unquote` modelled byte-wise: each valid `%XX` escape
becomes the character with that code (multi-byte UTF-8 sequences are not
recombined; no property below depends on that), invalid escapes stay
literal. -/
def unquoteList : List Char → List Char
  | '%' :: a :: b :: t =>
    match hexVal a, hexVal b with
    | some x, some y => Char.ofNat (16 * x + y) :: unquoteList t
    | _, _ => '%' :: unquoteList (a :: b :: t)
  | c :: t => c :: unquoteList t
  | [] => []

/-- `^[a-z0-9.-]+\.[a-z]{2,}/` with `re.IGNORECASE` -/
def domain_re : RE :=
  .seq (RE.plus (.cls fun c => c.isAlpha || c.isDigit || c = '.' || c = '-'))
    (.seq (.chr '.')
      (.seq (.cls Char.isAlpha) (.seq (RE.plus (.cls Char.isAlpha)) (.chr '/'))))

/-- the character class of `_PATH_ALLOWED` as Python actually parses it: the
raw string `r"...\\[\\]..."` escapes the backslashes, so the `]` after
`\\[\\` closes the class early; it admits `[A-Za-z0-9._~:/?#\[]`. -/
def pathAllowedCls (c : Char) : Bool :=
  c.isAlpha || c.isDigit || c = '.' || c = '_' || c = '~' || c = ':' || c = '/' ||
  c = '?' || c = '#' || c = '\\' || c = '['

/-- `_PATH_ALLOWED = re.compile(r"^/[A-Za-z0-9._~:/?#\\[\\]@!$&'()*+,;=%\\-]*$")`
transcribed per Python's parse (confirmed against `re._parser`):
`^ / [class] @ ! $ & ' ()*+ , ; = % \ - ]* $`, where the possessive repeat
of the empty group matches the empty string. -/
def pathAllowed_re : RE :=
  .seq .bos (.seq (.chr '/') (.seq (.cls pathAllowedCls) (.seq (.chr '@')
    (.seq (.chr '!') (.seq .eos (.seq (.chr '&') (.seq (.chr '\'') (.seq .eps
      (.seq (.chr ',') (.seq (.chr ';') (.seq (.chr '=') (.seq (.chr '%')
        (.seq (.chr '\\') (.seq (.chr '-')
          (.seq (.star (.chr ']')) .eos)))))))))))))))

/-- `path.split("/", 1)[1]` (callers guarantee a slash is present) -/
def afterFirstSlash (s : String) : String :=
  String.mk ((s.data.dropWhile (· ≠ '/')).drop 1)

/-- The URL/domain phase of `extract_path_candidate`: the stripped input,
its URL path when it is a full URL, with a scheme-less `domain.tld/...`
prefix replaced by the part after the first slash. -/
def basePathOf (raw : String) : List Char :=
  let s := pyStripList raw.data
  let str := String.mk s
  let path := if str.startsWith "http://" || str.startsWith "https://" then (urlparsePath str).data else s
  if path.head? ≠ some '/' ∧ reMatch domain_re (String.mk path) then
    '/' :: (afterFirstSlash (String.mk path)).data
  else path

/-- The first half of `extract_path_candidate`: empty input and
space-bearing slugs are rejected, and a leading slash is ensured. -/
def rawPathOf (raw : String) : Option (List Char) :=
  if pyStripList raw.data = [] then none
  else
    let path := basePathOf raw
    if path.head? ≠ some '/' ∧ containsSub [' '] path then none
    else some (if path.head? = some '/' then path else '/' :: path)

/-- the final checks of `extract_path_candidate`: the `_PATH_ALLOWED`
pattern, then the bare-root rejection -/
def finishPath (path : List Char) : Option String :=
  if ¬ reMatch pathAllowed_re (String.mk path) then none
  else if path = ['/'] then none
  else some (String.mk path)

/-- `extract_path_candidate` from `backend/app/url_resolver.py`: the
preparation above, then percent-decode, collapse slashes, trim one trailing
slash, and apply the final checks. -/
def extract_path_candidate (raw : String) : Option String :=
  match rawPathOf raw with
  | none => none
  | some p1 => finishPath (trimSlash (collapseSlashes (unquoteList p1)))

/-! ## `_group_hits` (`backend/app/search/suggest_service.py`) and the
candidate dictionaries shared with `resolve_service.py` -/

/-- the plain dict built by `_group_hits` / `_make_candidate`
(fields straight from `_source`, no defaulting) -/
structure CandidateDict where
  id : Option String := none
  entity_type : Option String := none
  name : Option String := none
  city : Option String := none
  city_id : Option String := none
  parent_name : Option String := none
  canonical_url : Option String := none
  score : Option ℚ := none
deriving DecidableEq, Repr

def mkCandidate (h : Hit) : CandidateDict :=
  { id := h.source.id, entity_type := h.source.entity_type, name := h.source.name,
    city := h.source.city, city_id := h.source.city_id,
    parent_name := h.source.parent_name, canonical_url := h.source.canonical_url,
    score := h.score }

namespace SuggestService

def LOCATION_TYPES : List String :=
  ["city", "micromarket", "locality", "listing_page", "locality_overview"]
def PROJECT_TYPES : List String := ["project"]
def BUILDER_TYPES : List String := ["builder"]
def RATE_TYPES : List String := ["rate_page"]
def PDP_TYPES : List String := ["property_pdp"]

/-- the five per-bucket caps (`per_group` dict) -/
structure PerGroup where
  locations : Nat
  projects : Nat
  builders : Nat
  rate_pages : Nat
  property_pdps : Nat
deriving DecidableEq, Repr

/-- the five buckets (`groups` dict) -/
structure Groups where
  locations : List CandidateDict := []
  projects : List CandidateDict := []
  builders : List CandidateDict := []
  rate_pages : List CandidateDict := []
  property_pdps : List CandidateDict := []
deriving DecidableEq, Repr

/-- the `city_ok` closure: no filter when `city_id` is falsy, otherwise the
document's stripped `city_id` must equal it or be empty -/
def city_ok (city_id : Option String) (src : HitSource) : Bool :=
  if ¬ optTruthy city_id then true
  else
    let doc_city_id := pyStrip (src.city_id.getD "")
    doc_city_id = city_id.getD "" || doc_city_id = ""

/-- `entity_type in TYPE_SET` for an optional type -/
def etIn (et : Option String) (ts : List String) : Bool :=
  match et with
  | some t => ts.contains t
  | none => false

/-- one iteration of the grouping loop body -/
def processHit (city_id : Option String) (per : PerGroup) (g : Groups) (h : Hit) :
    Groups :=
  let src := h.source
  if ¬ city_ok city_id src then g
  else
    let et := src.entity_type
    let item := mkCandidate h
    if etIn et LOCATION_TYPES ∧ g.locations.length < per.locations then
      { g with locations := g.locations ++ [item] }
    else if etIn et PROJECT_TYPES ∧ g.projects.length < per.projects then
      { g with projects := g.projects ++ [item] }
    else if etIn et BUILDER_TYPES ∧ g.builders.length < per.builders then
      { g with builders := g.builders ++ [item] }
    else if etIn et RATE_TYPES ∧ g.rate_pages.length < per.rate_pages then
      { g with rate_pages := g.rate_pages ++ [item] }
    else if etIn et PDP_TYPES ∧ g.property_pdps.length < per.property_pdps then
      { g with property_pdps := g.property_pdps ++ [item] }
    else g

/-- `all(len(groups[k]) >= per_group[k] for k in per_group)` -/
def allFull (g : Groups) (per : PerGroup) : Bool :=
  g.locations.length ≥ per.locations ∧ g.projects.length ≥ per.projects ∧
  g.builders.length ≥ per.builders ∧ g.rate_pages.length ≥ per.rate_pages ∧
  g.property_pdps.length ≥ per.property_pdps

def groupHitsAux (city_id : Option String) (per : PerGroup) :
    List Hit → Groups → Groups
  | [], g => g
  | h :: t, g =>
    let g' := processHit city_id per g h
    if allFull g' per then g' else groupHitsAux city_id per t g'

/-- `_group_hits` from `backend/app/search/suggest_service.py` -/
def group_hits (hits : List Hit) (city_id : Option String) (per : PerGroup) :
    Groups :=
  groupHitsAux city_id per hits {}

end SuggestService

/-! ## `resolve` (`backend/app/search/resolve_service.py`) -/

namespace ResolveService

def REDIRECT_TYPES : List String :=
  ["city", "micromarket", "locality", "listing_page", "locality_overview",
   "rate_page", "project", "property_pdp", "builder"]

def CONSTRAINT_TOKENS : List String :=
  ["bhk", "bedroom", "ready", "rtm", "uc", "under", "below", "above", "budget",
   "lakh", "lac", "cr", "crore", "rent", "rental", "resale", "buy", "sale",
   "furnished", "semi-furnished", "unfurnished", "possession", "new", "projects"]

/-- `str.split()` with no separator: split on whitespace runs,
discarding empty pieces -/
def pySplitWs (s : String) : List String :=
  let t := pyStrip (collapseWs s)
  if t = "" then [] else t.splitOn " "

def looks_constraint_heavy (q : String) : Bool :=
  let toks := pySplitWs (pyLower q)
  let hits := (toks.filter fun t => CONSTRAINT_TOKENS.contains t).length
  (toks.length ≥ 4 ∧ hits ≥ 1) ∨ hits ≥ 2

def score_gap (top_score second_score : ℚ) : ℚ :=
  if top_score ≤ 0 then 0 else (top_score - second_score) / top_score

/-- the decision dict of `resolve_service.resolve` (plain dict; absent keys
are `none`/defaults; the non-contractual `debug` bag is omitted) -/
structure RSDecision where
  action : String
  query : String
  normalized_query : String
  url : Option String := none
  matched : Option CandidateDict := none
  candidates : Option (List CandidateDict) := none
  reason : Option String := none
deriving DecidableEq, Repr

/-- the index collaborator of `resolve_service.resolve`: one ranked search
by the normalized query (the request body is fixed apart from it) -/
structure RSEnv where
  search : String → List Hit

/-- `resolve` from `backend/app/search/resolve_service.py` -/
def resolve (env : RSEnv) (q : String) (city_id : Option String) : RSDecision :=
  let q_norm := normalize_query q
  if q_norm = "" then
    { action := "serp", query := q, normalized_query := q_norm, reason := some "empty" }
  else if looks_constraint_heavy q_norm then
    { action := "serp", query := q, normalized_query := q_norm, reason := some "constraint_heavy" }
  else
    let hits := env.search q_norm
    if hits = [] then
      { action := "serp", query := q, normalized_query := q_norm, reason := some "no_hits" }
    else
      let city_ok : HitSource → Bool := fun src =>
        if ¬ optTruthy city_id then true
        else
          let doc_city_id := pyStrip (src.city_id.getD "")
          doc_city_id = city_id.getD "" || doc_city_id = ""
      let filtered := hits.filter fun h =>
        city_ok h.source &&
        (match h.source.entity_type with
         | some t => REDIRECT_TYPES.contains t
         | none => false)
      match filtered with
      | [] =>
        { action := "serp", query := q, normalized_query := q_norm,
          reason := some "no_city_scoped_hits" }
      | top :: restF =>
        let top_score : ℚ := top.score.getD 0
        let second_score : ℚ := match restF with | [] => 0 | h :: _ => h.score.getD 0
        let _gap := score_gap top_score second_score
        let strong := top_score ≥ 5
        let gap_ok := score_gap top_score second_score ≥ 18 / 100
        let top_cand := mkCandidate top
        if strong ∧ gap_ok then
          { action := "redirect", query := q, normalized_query := q_norm,
            url := top_cand.canonical_url, matched := some top_cand }
        else
          let candidates := ((top :: restF).take 8).filterMap fun h =>
            let sc : ℚ := h.score.getD 0
            if top_score > 0 ∧ sc / top_score ≥ 75 / 100 then some (mkCandidate h)
            else none
          if candidates.length ≥ 2 then
            { action := "disambiguate", query := q, normalized_query := q_norm,
              candidates := some (candidates.take 6) }
          else
            { action := "serp", query := q, normalized_query := q_norm,
              reason := some "low_confidence" }

end ResolveService

/-! ## Theorems -/

theorem applyBudget_true_price (a b : Option Int) (st : Budgets) :
    (applyBudget true a b st).min_price = st.min_price ∧
    (applyBudget true a b st).max_price = st.max_price := by
  simp [applyBudget]

theorem applyBudget_false_rent (a b : Option Int) (st : Budgets) :
    (applyBudget false a b st).min_rent = st.min_rent ∧
    (applyBudget false a b st).max_rent = st.max_rent := by
  simp [applyBudget]

theorem budgetPipeline_exclusive (rc : Bool) (s : String) :
    ((budgetPipeline rc s).min_price = none ∧ (budgetPipeline rc s).max_price = none) ∨
    ((budgetPipeline rc s).min_rent = none ∧ (budgetPipeline rc s).max_rent = none) := by
  cases rc with
  | true =>
    left
    unfold budgetPipeline
    repeat' split
    all_goals simp_all [applyBudget]
  | false =>
    right
    unfold budgetPipeline
    repeat' split
    all_goals simp_all [applyBudget]

/-- **C6.** For every raw query, the `ParsedQuery` produced by `parse_query`
never has a price field (`min_price`/`max_price`) and a rent field
(`min_rent`/`max_rent`) set at the same time: the budget block routes every
numeric mention through `_apply_budget` with one fixed rent/buy context
(rent when rent intent or per-month vocabulary is present, otherwise buy),
so one of the two pairs stays entirely unset. -/
theorem budget_context_exclusive (q : String) :
    ((parse_query q).min_price = none ∧ (parse_query q).max_price = none) ∨
    ((parse_query q).min_rent = none ∧ (parse_query q).max_rent = none) := by
  have h := budgetPipeline_exclusive
    (reTest rentctx_re (normalize_q (some q)) ||
      ((if reTest rent_re (normalize_q (some q)) then some "rent"
        else if reTest buy_re (normalize_q (some q)) then some "buy"
        else none) = some "rent"))
    (normalize_q (some q))
  simpa [parse_query] using h

set_option maxHeartbeats 4000000 in
/-- **C3 (counterexample).** `"dlf projects"` parses with
`builder_hint = "dlf"` set, yet `is_constraint_heavy` is `False`:
`builder_hint` is not among the fields the classifier tests (and it does not
trigger the `listing` page-intent fallback either), so the claimed
"if and only if" fails in the if-direction. -/
theorem constraint_heavy_builder_hint_cex :
    (parse_query "dlf projects").builder_hint = some "dlf" ∧
    is_constraint_heavy "dlf projects" = false := by
  constructor
  · rfl
  · rfl

set_option maxHeartbeats 2000000 in
/-- **C3 (amended).** `is_constraint_heavy q` is true iff one of
{intent, bhk, property_type, status, min_price, max_price, min_rent,
max_rent} is set in the parse result or `page_intent == "listing"` —
i.e. the spec's list minus `builderHint`; it is a pure function of the
parse result. -/
theorem is_constraint_heavy_iff (q : String) :
    is_constraint_heavy q = true ↔
      ((parse_query q).intent ≠ none ∨ (parse_query q).bhk ≠ none ∨
       (parse_query q).property_type ≠ none ∨ (parse_query q).status ≠ none ∨
       (parse_query q).min_price ≠ none ∨ (parse_query q).max_price ≠ none ∨
       (parse_query q).min_rent ≠ none ∨ (parse_query q).max_rent ≠ none ∨
       (parse_query q).page_intent = some "listing") := by
  unfold is_constraint_heavy
  simp only [Bool.or_eq_true, Option.isSome_iff_ne_none, decide_eq_true_eq]
  tauto

/-- **C7.** `resolve_service.resolve` with an empty normalized query returns
a `serp` decision with reason `empty` before consulting the index (the
parser and classifier are total functions, so no input can raise). -/
theorem resolve_service_empty_query (env : ResolveService.RSEnv) (q : String)
    (city_id : Option String) (h : normalize_query q = "") :
    (ResolveService.resolve env q city_id).action = "serp" ∧
    (ResolveService.resolve env q city_id).reason = some "empty" := by
  simp [ResolveService.resolve, h]

theorem resolve_service_empty_query_witness :
    (ResolveService.resolve ⟨fun _ => []⟩ "   " none).action = "serp" ∧
    (ResolveService.resolve ⟨fun _ => []⟩ "   " none).reason = some "empty" :=
  resolve_service_empty_query ⟨fun _ => []⟩ "   " none (by decide)

theorem scoreGapDecision_eq (cfg : ResolverConfig) (raw_q : String)
    (city_id context_url : Option String) (top_hit : Hit) (rest : List Hit) :
    scoreGapDecision cfg raw_q city_id context_url top_hit rest =
      if (top_hit.score.getD 0 : ℚ) ≥ cfg.min_redirect_score ∧
          (if (top_hit.score.getD 0 : ℚ) ≤ 0 then (1 : ℚ)
           else ((top_hit.score.getD 0 : ℚ) -
              (match rest with | [] => (0 : ℚ) | h :: _ => h.score.getD 0)) /
             max (top_hit.score.getD 0 : ℚ) (1 / 1000000000)) ≥ cfg.min_redirect_gap then
        { action := "redirect", query := raw_q,
          normalized_query := normalize_q (some raw_q),
          url := some (hit_to_entity top_hit false).canonical_url,
          matched := some (hit_to_entity top_hit false),
          reason := some "confident_redirect" }
      else
        { action := "serp", query := raw_q,
          normalized_query := normalize_q (some raw_q),
          url := some (build_serp_url raw_q city_id none context_url),
          reason := some "ambiguous" } := rfl

/-- **C4.** At the final score-gap test, with
`gap = (topScore − secondScore) / max(topScore, 1e-9)`, the decision is
`redirect`/`confident_redirect` iff `topScore ≥ MIN_REDIRECT_SCORE` and
`gap ≥ MIN_REDIRECT_GAP`, and otherwise `serp`/`ambiguous`.  The code
short-circuits `gap` to `1.0` for non-positive top scores; a positive
`MIN_REDIRECT_SCORE` (the default is `5.0`) makes that case fail the first
conjunct on both sides, so the equivalence holds for every configuration
with a positive score threshold. -/
theorem score_gap_confidence_iff (cfg : ResolverConfig) (raw_q : String)
    (city_id context_url : Option String) (top_hit : Hit) (rest : List Hit)
    (hpos : 0 < cfg.min_redirect_score) :
    let top_score : ℚ := top_hit.score.getD 0
    let second_score : ℚ := match rest with | [] => (0 : ℚ) | h :: _ => h.score.getD 0
    let gap : ℚ := (top_score - second_score) / max top_score (1 / 1000000000)
    let d := scoreGapDecision cfg raw_q city_id context_url top_hit rest
    (top_score ≥ cfg.min_redirect_score ∧ gap ≥ cfg.min_redirect_gap →
      d.action = "redirect" ∧ d.reason = some "confident_redirect") ∧
    (¬ (top_score ≥ cfg.min_redirect_score ∧ gap ≥ cfg.min_redirect_gap) →
      d.action = "serp" ∧ d.reason = some "ambiguous") := by
  intro top_score second_score gap d
  have hd := scoreGapDecision_eq cfg raw_q city_id context_url top_hit rest
  by_cases h0 : top_score ≤ 0
  · have hlt : ¬ top_score ≥ cfg.min_redirect_score := by
      simp only [ge_iff_le, not_le]
      linarith
    rw [if_neg (fun hc => hlt hc.1)] at hd
    exact ⟨fun hc => absurd hc.1 hlt, fun _ => by rw [show d = _ from hd]; exact ⟨rfl, rfl⟩⟩
  · rw [show (if top_score ≤ 0 then (1 : ℚ)
        else (top_score - second_score) / max top_score (1 / 1000000000)) = gap
        from if_neg h0] at hd
    by_cases hc : top_score ≥ cfg.min_redirect_score ∧ gap ≥ cfg.min_redirect_gap
    · rw [if_pos hc] at hd
      exact ⟨fun _ => by rw [show d = _ from hd]; exact ⟨rfl, rfl⟩, fun hn => absurd hc hn⟩
    · rw [if_neg hc] at hd
      exact ⟨fun h => absurd h hc, fun _ => by rw [show d = _ from hd]; exact ⟨rfl, rfl⟩⟩

theorem score_gap_confidence_iff_witness :
    (scoreGapDecision {} "godrej woods" none none
        { source := {}, score := some 10 } []).action = "redirect" ∧
    (scoreGapDecision {} "godrej woods" none none
        { source := {}, score := some 10 } []).reason = some "confident_redirect" :=
  (score_gap_confidence_iff {} "godrej woods" none none
      { source := {}, score := some 10 } [] (by norm_num)).1 (by norm_num)

/-! C8: `build_listing_url` on project entities -/

def entGodrej : EntityOut :=
  { id := "proj_godrej_woods", entity_type := "project", name := "Godrej Woods",
    city := "Noida", city_id := "city_noida", parent_name := "Sector 43",
    canonical_url := "/projects/noida/godrej-woods" }

def parsedRent2 : ParseResponse :=
  { q := "2 bhk rent godrej woods", intent := some "rent", bhk := some 2 }

/-- **C8 (counterexample).** For a project entity the code returns the
entity's own canonical URL with the filters appended — the result contains
no `project_id` parameter and no intent segment, so it is not of the
claimed form `/{citySlug}/{segment}?project_id={id}&{filters}`. -/
theorem listing_url_project_cex :
    entGodrej.entity_type = "project" ∧
    build_listing_url entGodrej parsedRent2 = "/projects/noida/godrej-woods?bhk=2" ∧
    containsSub "project_id".data (build_listing_url entGodrej parsedRent2).data = false ∧
    containsSub "/rent".data (build_listing_url entGodrej parsedRent2).data = false := by
  refine ⟨rfl, by decide, by decide, by decide⟩

/-- **C8 (amended).** For every entity of type `project`,
`build_listing_url` follows the "anything else" rule: the entity's
canonical URL (trailing slashes stripped, `/` if empty) with the serialized
filters appended when present — no `{segment}` and no `project_id`
parameter. -/
theorem listing_url_project_form (ent : EntityOut) (parsed : ParseResponse)
    (h : ent.entity_type = "project") :
    build_listing_url ent parsed =
      (if rstripSlash ent.canonical_url = "" then "/" else rstripSlash ent.canonical_url) ++
      (if urlencodePairs (listingParams parsed) ≠ "" then
        "?" ++ urlencodePairs (listingParams parsed)
      else "") := by
  simp [build_listing_url, h, locationTypes]

theorem listing_url_project_form_witness :
    build_listing_url entGodrej parsedRent2 = "/projects/noida/godrej-woods?bhk=2" := by
  rw [listing_url_project_form entGodrej parsedRent2 rfl]
  decide

/-! C10: `_group_hits` caps and city scoping -/

namespace SuggestService

/-- the invariant carried through the grouping loop: every bucket respects
its cap, and (when a non-empty city is supplied) every grouped item's
stripped `city_id` is that city or empty -/
def GroupsInv (city_id : Option String) (per : PerGroup) (g : Groups) : Prop :=
  (g.locations.length ≤ per.locations ∧ g.projects.length ≤ per.projects ∧
   g.builders.length ≤ per.builders ∧ g.rate_pages.length ≤ per.rate_pages ∧
   g.property_pdps.length ≤ per.property_pdps) ∧
  (∀ c, city_id = some c → c ≠ "" →
    ∀ item ∈ g.locations ++ g.projects ++ g.builders ++ g.rate_pages ++ g.property_pdps,
      pyStrip (item.city_id.getD "") = c ∨ pyStrip (item.city_id.getD "") = "")

theorem city_ok_spec (c : String) (src : HitSource) (hne : c ≠ "")
    (hok : city_ok (some c) src = true) :
    pyStrip (src.city_id.getD "") = c ∨ pyStrip (src.city_id.getD "") = "" := by
  have h2 : c = "" ∨ pyStrip (src.city_id.getD "") = c ∨ pyStrip (src.city_id.getD "") = "" := by
    simpa [city_ok, optTruthy] using hok
  rcases h2 with h | h
  · exact absurd h hne
  · exact h

set_option maxHeartbeats 3200000 in
theorem processHit_inv (city_id : Option String) (per : PerGroup) (g : Groups)
    (h : Hit) (hinv : GroupsInv city_id per g) :
    GroupsInv city_id per (processHit city_id per g h) := by
  obtain ⟨⟨hc1, hc2, hc3, hc4, hc5⟩, hmem⟩ := hinv
  unfold processHit
  dsimp only
  split
  · exact ⟨⟨hc1, hc2, hc3, hc4, hc5⟩, hmem⟩
  next hok0 =>
    have hok' : city_ok city_id h.source = true := by
      revert hok0
      cases city_ok city_id h.source <;> simp
    have hitem : ∀ c, city_id = some c → c ≠ "" →
        pyStrip ((mkCandidate h).city_id.getD "") = c ∨
        pyStrip ((mkCandidate h).city_id.getD "") = "" := by
      intro c hcity hne
      exact city_ok_spec c h.source hne (hcity ▸ hok')
    split
    next hcond =>
      obtain ⟨-, hlt⟩ := hcond
      refine ⟨⟨?_, ?_, ?_, ?_, ?_⟩, fun c hcity hne it hmem' => ?_⟩
      · simp only [List.length_append, List.length_singleton]
        omega
      · exact hc2
      · exact hc3
      · exact hc4
      · exact hc5
      · have hsplit : it ∈ g.locations ++ g.projects ++ g.builders ++
            g.rate_pages ++ g.property_pdps ∨ it = mkCandidate h := by
          revert hmem'
          simp only [List.mem_append, List.mem_singleton]
          tauto
        rcases hsplit with hold | heq
        · exact hmem c hcity hne it hold
        · subst heq
          exact hitem c hcity hne
    next =>
    split
    next hcond =>
      obtain ⟨-, hlt⟩ := hcond
      refine ⟨⟨?_, ?_, ?_, ?_, ?_⟩, fun c hcity hne it hmem' => ?_⟩
      · exact hc1
      · simp only [List.length_append, List.length_singleton]
        omega
      · exact hc3
      · exact hc4
      · exact hc5
      · have hsplit : it ∈ g.locations ++ g.projects ++ g.builders ++
            g.rate_pages ++ g.property_pdps ∨ it = mkCandidate h := by
          revert hmem'
          simp only [List.mem_append, List.mem_singleton]
          tauto
        rcases hsplit with hold | heq
        · exact hmem c hcity hne it hold
        · subst heq
          exact hitem c hcity hne
    next =>
    split
    next hcond =>
      obtain ⟨-, hlt⟩ := hcond
      refine ⟨⟨?_, ?_, ?_, ?_, ?_⟩, fun c hcity hne it hmem' => ?_⟩
      · exact hc1
      · exact hc2
      · simp only [List.length_append, List.length_singleton]
        omega
      · exact hc4
      · exact hc5
      · have hsplit : it ∈ g.locations ++ g.projects ++ g.builders ++
            g.rate_pages ++ g.property_pdps ∨ it = mkCandidate h := by
          revert hmem'
          simp only [List.mem_append, List.mem_singleton]
          tauto
        rcases hsplit with hold | heq
        · exact hmem c hcity hne it hold
        · subst heq
          exact hitem c hcity hne
    next =>
    split
    next hcond =>
      obtain ⟨-, hlt⟩ := hcond
      refine ⟨⟨?_, ?_, ?_, ?_, ?_⟩, fun c hcity hne it hmem' => ?_⟩
      · exact hc1
      · exact hc2
      · exact hc3
      · simp only [List.length_append, List.length_singleton]
        omega
      · exact hc5
      · have hsplit : it ∈ g.locations ++ g.projects ++ g.builders ++
            g.rate_pages ++ g.property_pdps ∨ it = mkCandidate h := by
          revert hmem'
          simp only [List.mem_append, List.mem_singleton]
          tauto
        rcases hsplit with hold | heq
        · exact hmem c hcity hne it hold
        · subst heq
          exact hitem c hcity hne
    next =>
    split
    next hcond =>
      obtain ⟨-, hlt⟩ := hcond
      refine ⟨⟨?_, ?_, ?_, ?_, ?_⟩, fun c hcity hne it hmem' => ?_⟩
      · exact hc1
      · exact hc2
      · exact hc3
      · exact hc4
      · simp only [List.length_append, List.length_singleton]
        omega
      · have hsplit : it ∈ g.locations ++ g.projects ++ g.builders ++
            g.rate_pages ++ g.property_pdps ∨ it = mkCandidate h := by
          revert hmem'
          simp only [List.mem_append, List.mem_singleton]
          tauto
        rcases hsplit with hold | heq
        · exact hmem c hcity hne it hold
        · subst heq
          exact hitem c hcity hne
    next =>
    exact ⟨⟨hc1, hc2, hc3, hc4, hc5⟩, hmem⟩

theorem groupHitsAux_inv (city_id : Option String) (per : PerGroup)
    (hits : List Hit) (g : Groups) (hinv : GroupsInv city_id per g) :
    GroupsInv city_id per (groupHitsAux city_id per hits g) := by
  induction hits generalizing g with
  | nil => exact hinv
  | cons h t ih =>
    unfold groupHitsAux
    dsimp only
    split
    · exact processHit_inv city_id per g h hinv
    · exact ih _ (processHit_inv city_id per g h hinv)

end SuggestService

/-- **C10 (amended).** Every bucket produced by `_group_hits` respects its
`per_group` cap, and when a non-empty `city_id` is supplied every grouped
item's `city_id` — read as `""` when missing and stripped of surrounding
whitespace, exactly as the `city_ok` filter reads it — equals that
`city_id` or is empty. -/
theorem group_hits_caps_and_city (hits : List Hit) (city_id : Option String)
    (per : SuggestService.PerGroup) :
    ((SuggestService.group_hits hits city_id per).locations.length ≤ per.locations ∧
     (SuggestService.group_hits hits city_id per).projects.length ≤ per.projects ∧
     (SuggestService.group_hits hits city_id per).builders.length ≤ per.builders ∧
     (SuggestService.group_hits hits city_id per).rate_pages.length ≤ per.rate_pages ∧
     (SuggestService.group_hits hits city_id per).property_pdps.length ≤ per.property_pdps) ∧
    (∀ c, city_id = some c → c ≠ "" →
      ∀ item ∈ (SuggestService.group_hits hits city_id per).locations ++
          (SuggestService.group_hits hits city_id per).projects ++
          (SuggestService.group_hits hits city_id per).builders ++
          (SuggestService.group_hits hits city_id per).rate_pages ++
          (SuggestService.group_hits hits city_id per).property_pdps,
        pyStrip (item.city_id.getD "") = c ∨ pyStrip (item.city_id.getD "") = "") := by
  have h0 : SuggestService.GroupsInv city_id per {} := by
    refine ⟨⟨?_, ?_, ?_, ?_, ?_⟩, ?_⟩ <;> simp
  exact SuggestService.groupHitsAux_inv city_id per hits {} h0

def hPad : Hit :=
  { source := { id := some "e1", entity_type := some "city", name := some "Pune",
                city_id := some " c1 ", canonical_url := some "/pune" },
    score := some 1 }

def perDemo : SuggestService.PerGroup := ⟨6, 5, 4, 4, 4⟩

/-- **C10 (counterexample).** A hit whose document `city_id` is `" c1 "`
passes the `city_ok` filter for `city_id = "c1"` (the filter strips it
before comparing) but the grouped item carries the raw `" c1 "`, which is
neither the supplied city id nor empty — so "every grouped item carries
that city_id or an empty city_id" fails as stated. -/
theorem group_hits_city_id_cex :
    (SuggestService.group_hits [hPad] (some "c1") perDemo).locations.map
        (fun i => i.city_id) = [some " c1 "] ∧
    ¬ ((some " c1 " : Option String) = some "c1" ∨
       (some " c1 " : Option String) = some "" ∨
       (some " c1 " : Option String) = none) := by
  refine ⟨by decide, by decide⟩

theorem group_hits_caps_and_city_witness :
    ((SuggestService.group_hits [hPad] (some "c1") perDemo).locations.length ≤
      perDemo.locations) ∧
    (∀ item ∈ (SuggestService.group_hits [hPad] (some "c1") perDemo).locations ++
        (SuggestService.group_hits [hPad] (some "c1") perDemo).projects ++
        (SuggestService.group_hits [hPad] (some "c1") perDemo).builders ++
        (SuggestService.group_hits [hPad] (some "c1") perDemo).rate_pages ++
        (SuggestService.group_hits [hPad] (some "c1") perDemo).property_pdps,
      pyStrip (item.city_id.getD "") = "c1" ∨ pyStrip (item.city_id.getD "") = "") := by
  have h := group_hits_caps_and_city [hPad] (some "c1") perDemo
  exact ⟨h.1.1, h.2 "c1" rfl (by decide)⟩

/-! C5/C9: structural lemmas about the path pipeline -/

theorem containsSub_iff (sub l : List Char) : containsSub sub l = true ↔ sub <:+: l := by
  induction l with
  | nil =>
    simp only [containsSub, List.isEmpty_iff]
    constructor
    · intro h
      simp [h]
    · intro h
      exact List.sublist_nil.mp h.sublist
  | cons c t ih =>
    simp [containsSub, List.infix_cons_iff, List.isPrefixOf_iff_prefix, ih]

theorem collapse_head (x : Char) (xs : List Char) :
    (collapseSlashes (x :: xs)).head? = some x := by
  induction xs generalizing x with
  | nil => simp [collapseSlashes]
  | cons y t ih =>
    by_cases h : x = '/' ∧ y = '/'
    · rw [show collapseSlashes (x :: y :: t) = collapseSlashes (y :: t) from by
        simp [collapseSlashes, h]]
      rw [ih y, h.1, h.2]
    · simp [collapseSlashes, h]

theorem collapse_noDouble (l : List Char) : ¬ (['/', '/'] <:+: collapseSlashes l) := by
  induction l with
  | nil => simp [collapseSlashes]
  | cons c t ih =>
    cases t with
    | nil =>
      intro hcon
      have := hcon.length_le
      simp [collapseSlashes] at this
    | cons d t' =>
      by_cases h : c = '/' ∧ d = '/'
      · rw [show collapseSlashes (c :: d :: t') = collapseSlashes (d :: t') from by
          simp [collapseSlashes, h]]
        exact ih
      · rw [show collapseSlashes (c :: d :: t') = c :: collapseSlashes (d :: t') from by
          simp [collapseSlashes, h]]
        intro hcon
        rcases List.infix_cons_iff.mp hcon with hpre | hinf
        · obtain ⟨r, hr⟩ := hpre
          simp only [List.cons_append, List.nil_append] at hr
          rw [List.cons.injEq] at hr
          obtain ⟨hc1, hr2⟩ := hr
          have hh := collapse_head d t'
          rw [← hr2] at hh
          simp only [List.head?_cons, Option.some.injEq] at hh
          exact h ⟨hc1.symm, hh.symm⟩
        · exact ih hinf

theorem noDouble_dropLast {l : List Char} (h : ¬ (['/', '/'] <:+: l)) :
    ¬ (['/', '/'] <:+: l.dropLast) :=
  fun hcon => h (hcon.trans (List.dropLast_prefix l).isInfix)

theorem head_dropLast {l : List Char} (h : 1 < l.length) :
    l.dropLast.head? = l.head? := by
  match l, h with
  | a :: b :: t, _ => simp

theorem lastTwo_within {l : List Char} {a b : Char} (h1 : l.getLast? = some a)
    (h2 : l.dropLast.getLast? = some b) : [b, a] <:+: l := by
  have e1 : l.dropLast ++ [a] = l :=
    List.dropLast_append_getLast? a (by rw [Option.mem_def, h1])
  have e2 : l.dropLast.dropLast ++ [b] = l.dropLast :=
    List.dropLast_append_getLast? b (by rw [Option.mem_def, h2])
  have e3 : l.dropLast.dropLast ++ [b, a] = l := by
    rw [← e1, ← e2]
    simp
  exact (List.IsSuffix.isInfix ⟨l.dropLast.dropLast, e3⟩)


theorem unquote_cons_slash (t : List Char) :
    unquoteList ('/' :: t) = '/' :: unquoteList t := by
  cases t with
  | nil => rfl
  | cons a t' =>
    cases t' with
    | nil => rfl
    | cons b t'' => rfl

theorem prepend_head (p0 : List Char) :
    (if p0.head? = some '/' then p0 else '/' :: p0).head? = some '/' := by
  split
  next h => exact h
  next => rfl

theorem head_shape {l : List Char} (h : l.head? = some '/') : ∃ t, l = '/' :: t := by
  cases l with
  | nil => simp at h
  | cons a t =>
    simp only [List.head?_cons, Option.some.injEq] at h
    exact ⟨t, by rw [h]⟩

theorem unquote_head {l : List Char} (h : l.head? = some '/') :
    (unquoteList l).head? = some '/' := by
  obtain ⟨t, ht⟩ := head_shape h
  rw [ht, unquote_cons_slash]
  rfl

theorem collapse_head_of {l : List Char} (h : l.head? = some '/') :
    (collapseSlashes l).head? = some '/' := by
  obtain ⟨t, ht⟩ := head_shape h
  rw [ht]
  exact collapse_head '/' t

theorem trim_head (pc : List Char) (hhead : pc.head? = some '/') :
    (trimSlash pc).head? = some '/' := by
  unfold trimSlash
  split
  next hcond => rw [head_dropLast hcond.1]; exact hhead
  next => exact hhead

theorem trim_noDouble (pc : List Char) (hnd : ¬ (['/', '/'] <:+: pc)) :
    ¬ (['/', '/'] <:+: trimSlash pc) := by
  unfold trimSlash
  split
  · exact noDouble_dropLast hnd
  · exact hnd

theorem trim_last (pc : List Char) (hhead : pc.head? = some '/')
    (hnd : ¬ (['/', '/'] <:+: pc)) (hroot : trimSlash pc ≠ ['/']) :
    (trimSlash pc).getLast? ≠ some '/' := by
  unfold trimSlash at hroot ⊢
  by_cases hcond : pc.length > 1 ∧ pc.getLast? = some '/'
  · rw [if_pos hcond]
    intro hl
    exact hnd (lastTwo_within hcond.2 hl)
  · rw [if_neg hcond]
    rw [if_neg hcond] at hroot
    rcases not_and_or.mp hcond with hlen | hlast
    · intro _
      cases pc with
      | nil => simp at hhead
      | cons a t =>
        simp only [List.head?_cons, Option.some.injEq] at hhead
        cases t with
        | nil => exact hroot (by rw [hhead])
        | cons b t' => simp at hlen
    · exact hlast

theorem rawPathOf_head (raw : String) (p1 : List Char)
    (h : rawPathOf raw = some p1) : p1.head? = some '/' := by
  unfold rawPathOf at h
  dsimp only at h
  split at h
  · exact Option.noConfusion h
  split at h
  · exact Option.noConfusion h
  rw [Option.some.injEq] at h
  rw [← h]
  exact prepend_head _

theorem finishPath_shape (path : List Char) (p : String)
    (h : finishPath path = some p) :
    p = String.mk path ∧ path ≠ ['/'] ∧ reMatch pathAllowed_re (String.mk path) = true := by
  unfold finishPath at h
  split at h
  · exact absurd h (by simp)
  next hre =>
  split at h
  · exact absurd h (by simp)
  next hroot =>
  rw [Option.some.injEq] at h
  exact ⟨h.symm, hroot, of_not_not hre⟩

/-- **C9.** `extract_path_candidate` returns either `None` or a path that
begins with `/`, contains no two consecutive slashes, does not end with a
slash, is never the bare root `/`, and passes the `_PATH_ALLOWED` pattern
(transcribed as Python actually parses it). -/
theorem extract_path_candidate_shape (raw : String) :
    match extract_path_candidate raw with
    | none => True
    | some p =>
        p.data.head? = some '/' ∧ ¬ (['/', '/'] <:+: p.data) ∧
        p.data.getLast? ≠ some '/' ∧ p ≠ "/" ∧ reMatch pathAllowed_re p = true := by
  cases hE : extract_path_candidate raw with
  | none => trivial
  | some p =>
    cases hP : rawPathOf raw with
    | none =>
      unfold extract_path_candidate at hE
      rw [hP] at hE
      exact absurd hE (by simp)
    | some p1 =>
      unfold extract_path_candidate at hE
      rw [hP] at hE
      obtain ⟨hp, hroot, hre⟩ := finishPath_shape _ _ hE
      subst hp
      have h1 : p1.head? = some '/' := rawPathOf_head raw p1 hP
      refine ⟨?_, ?_, ?_, ?_, hre⟩
      · exact trim_head _ (collapse_head_of (unquote_head h1))
      · exact trim_noDouble _ (collapse_noDouble _)
      · exact trim_last _ (collapse_head_of (unquote_head h1)) (collapse_noDouble _) hroot
      · intro hcon
        exact hroot (congrArg String.data hcon)
/-! C5: the clean-path policy of `resolve` -/

theorem cleanPathPre_head (q : String) (p1 : List Char)
    (h : cleanPathPre q = some p1) : p1.head? = some '/' := by
  unfold cleanPathPre at h
  split at h
  · exact Option.noConfusion h
  split at h
  · exact Option.noConfusion h
  split at h
  · exact Option.noConfusion h
  rw [Option.some.injEq] at h
  rw [← h]
  exact prepend_head _

theorem clean_path_head (q p : String) (h : clean_path_from_anything q = some p) :
    p.data.head? = some '/' := by
  cases hP : cleanPathPre q with
  | none =>
    unfold clean_path_from_anything at h
    rw [hP] at h
    exact Option.noConfusion h
  | some p1 =>
    unfold clean_path_from_anything at h
    rw [hP] at h
    rw [Option.some.injEq] at h
    rw [← h]
    exact trim_head _ (collapse_head_of (cleanPathPre_head q p1 hP))

theorem head_strContains (p : String) (h : p.data.head? = some '/') :
    strContains p "/" = true := by
  obtain ⟨t, ht⟩ := head_shape h
  unfold strContains
  rw [show ("/" : String).data = ['/'] from rfl, ht]
  simp [containsSub, List.isPrefixOf]

theorem pathDecision_eq (env : SearchEnv) (q p : String)
    (hcp : clean_path_from_anything q = some p) (hsl : strContains p "/" = true) :
    pathDecision env q =
      (match env.redirects p with
       | some target =>
         some { action := "redirect", query := q, normalized_query := q,
                url := some target, reason := some "redirect_registry" }
       | none =>
         match env.lookup p with
         | some hit =>
           some { action := "redirect", query := q, normalized_query := q,
                  url := some (hit_to_entity hit false).canonical_url,
                  matched := some (hit_to_entity hit false),
                  reason := some "clean_url" }
         | none => none) := by
  unfold pathDecision
  rw [hcp]
  dsimp only
  rw [if_pos hsl]

/-- **C5.** For a query that parses as a URL path, `resolve` first consults
the static redirect registry (exact key match → `redirect`/
`redirect_registry` with the registry target), otherwise performs an exact
canonical-path lookup (hit → `redirect`/`clean_url` with the entity's own
canonical URL), and with neither falls through to normal resolution
(`resolveParsed`) rather than answering `no_results` immediately. -/
theorem clean_path_policy (env : SearchEnv) (cfg : ResolverConfig) (q : String)
    (city_id context_url : Option String) (p : String)
    (hcp : clean_path_from_anything q = some p) :
    (∀ target, env.redirects p = some target →
      resolve env cfg q city_id context_url =
        { action := "redirect", query := q, normalized_query := q,
          url := some target, reason := some "redirect_registry" }) ∧
    (∀ hit, env.redirects p = none → env.lookup p = some hit →
      resolve env cfg q city_id context_url =
        { action := "redirect", query := q, normalized_query := q,
          url := some (hit_to_entity hit false).canonical_url,
          matched := some (hit_to_entity hit false),
          reason := some "clean_url" }) ∧
    (env.redirects p = none → env.lookup p = none →
      resolve env cfg q city_id context_url =
        resolveParsed env cfg q city_id context_url) := by
  have hsl : strContains p "/" = true := head_strContains p (clean_path_head q p hcp)
  have hpd := pathDecision_eq env q p hcp hsl
  refine ⟨?_, ?_, ?_⟩
  · intro target ht
    unfold resolve
    rw [hpd, ht]
  · intro hit hr hl
    unfold resolve
    rw [hpd, hr, hl]
  · intro hr hl
    unfold resolve
    rw [hpd, hr, hl]

def envRegW : SearchEnv :=
  { redirects := fun p => if p = "/old/path" then some "/new/path" else none,
    search := fun _ _ _ _ => [],
    lookup := fun _ => none }

theorem clean_path_policy_witness :
    resolve envRegW {} "/old/path" none none =
      { action := "redirect", query := "/old/path", normalized_query := "/old/path",
        url := some "/new/path", reason := some "redirect_registry" } :=
  (clean_path_policy envRegW {} "/old/path" none none "/old/path" (by decide)).1
    "/new/path" rfl


/-! C1/C2: per-branch facts about the resolver steps -/

theorem pathDecision_redirect (env : SearchEnv) (q : String) (d : ResolveResponse)
    (h : pathDecision env q = some d) : d.action = "redirect" := by
  unfold pathDecision at h
  repeat'
    first
    | exact Option.noConfusion h
    | (rw [Option.some.injEq] at h
       rw [← h])
    | split at h

set_option maxHeartbeats 1000000 in
theorem pageIntentStep_cases (env : SearchEnv) (parsed : ParseResponse)
    (raw_q : String) (city_id : Option String) (d : ResolveResponse)
    (h : pageIntentStep env parsed raw_q city_id = some d) :
    d.action = "redirect" ∨
    (d.action = "disambiguate" ∧ d.reason = some "page_intent_same_name" ∧
      ∃ l, d.candidates = some l ∧ 2 ≤ l.length) := by
  unfold pageIntentStep at h
  dsimp only at h
  repeat'
    first
    | exact Option.noConfusion h
    | exact Option.noConfusion hh
    | (rw [Option.some.injEq] at hh
       rw [← hh] at h)
    | (rw [Option.some.injEq] at h
       rw [← h]
       left
       rfl)
    | (rw [Option.some.injEq] at h
       rw [← h]
       right
       refine ⟨rfl, rfl, _, rfl, ?_⟩
       simp only [List.length_take]
       omega)
    | split at h
    | split at hh
    | (rename_i hh
       first
       | exact Option.noConfusion hh
       | (rw [Option.some.injEq] at hh
          rw [← hh] at h)
       | split at hh)

/-- every entity mapped from a search restricted to the one entity type `t`
has entity type `t`, provided the search backend honors its `entity_types`
filter (`hts`). -/
theorem mem_map_hits_type (env : SearchEnv)
    (hts : ∀ qs n c ts, ∀ hit ∈ env.search qs n c (some ts),
      (hit_to_entity hit false).entity_type ∈ ts)
    (qs : String) (n : Nat) (c : Option String) (t : String) (e : EntityOut)
    (he : e ∈ (env.search qs n c (some [t])).map (hit_to_entity · false)) :
    e.entity_type = t := by
  rcases List.mem_map.mp he with ⟨hit, hmem, rfl⟩
  have h2 := hts qs n c [t] hit hmem
  simpa using h2

set_option maxHeartbeats 1000000 in
theorem pageIntentStep_types (env : SearchEnv) (parsed : ParseResponse)
    (raw_q : String) (city_id : Option String) (d : ResolveResponse)
    (hts : ∀ qs n c ts, ∀ hit ∈ env.search qs n c (some ts),
      (hit_to_entity hit false).entity_type ∈ ts)
    (h : pageIntentStep env parsed raw_q city_id = some d) :
    d.action = "redirect" ∨
    (d.action = "disambiguate" ∧ d.reason = some "page_intent_same_name" ∧
      ∃ l, d.candidates = some l ∧ 2 ≤ l.length ∧
        ∀ e₁ ∈ l, ∀ e₂ ∈ l, e₁.entity_type = e₂.entity_type) := by
  unfold pageIntentStep at h
  dsimp only at h
  repeat'
    first
    | exact Option.noConfusion h
    | exact Option.noConfusion hh
    | (rw [Option.some.injEq] at hh
       rw [← hh] at h)
    | (rw [Option.some.injEq] at h
       rw [← h]
       left
       rfl)
    | (rw [Option.some.injEq] at h
       rw [← h]
       right
       refine ⟨rfl, rfl, _, rfl, ?_, ?_⟩
       · simp only [List.length_take]
         omega
       · intro e₁ he₁ e₂ he₂
         first
         | rw [mem_map_hits_type env hts _ _ _ _ e₁
                 ((List.mem_filter.mp (List.take_subset _ _ he₁)).1),
               mem_map_hits_type env hts _ _ _ _ e₂
                 ((List.mem_filter.mp (List.take_subset _ _ he₂)).1)]
         | rw [mem_map_hits_type env hts _ _ _ _ e₁ (List.take_subset _ _ he₁),
               mem_map_hits_type env hts _ _ _ _ e₂ (List.take_subset _ _ he₂)])
    | split at h
    | split at hh
    | (rename_i hh
       first
       | exact Option.noConfusion hh
       | (rw [Option.some.injEq] at hh
          rw [← hh] at h)
       | split at hh)

set_option maxHeartbeats 1000000 in
theorem builderStep_redirect (env : SearchEnv) (parsed : ParseResponse)
    (raw_q : String) (city_id : Option String) (d : ResolveResponse)
    (h : builderStep env parsed raw_q city_id = some d) : d.action = "redirect" := by
  unfold builderStep at h
  dsimp only at h
  repeat'
    first
    | exact Option.noConfusion h
    | exact Option.noConfusion hh
    | (rw [Option.some.injEq] at hh
       rw [← hh] at h)
    | (rw [Option.some.injEq] at h
       rw [← h])
    | split at h
    | split at hh
    | (rename_i hh
       first
       | exact Option.noConfusion hh
       | (rw [Option.some.injEq] at hh
          rw [← hh] at h)
       | split at hh)

set_option maxHeartbeats 1000000 in
theorem constraintDecision_cases (env : SearchEnv) (parsed : ParseResponse)
    (raw_q : String) (city_id context_url : Option String) (d : ResolveResponse)
    (h : constraintDecision env parsed raw_q city_id context_url = d) :
    (d.action = "serp" → d.url = some (build_serp_url raw_q city_id none context_url)) ∧
    (d.action = "disambiguate" →
      d.reason = some "constraint_heavy_same_name" ∧
      ∃ l, d.candidates = some l ∧ 2 ≤ l.length) := by
  unfold constraintDecision at h
  dsimp only at h
  repeat'
    first
    | exact Option.noConfusion hh
    | (rw [Option.some.injEq] at hh
       rw [← hh] at h
       clear hh)
    | (rw [← h]
       refine ⟨fun _ => rfl, fun hact => ?_⟩
       simp at hact)
    | (rw [← h]
       refine ⟨fun hact => ?_, fun hact => ?_⟩
       · simp at hact
       · simp at hact)
    | (rw [← h]
       refine ⟨fun hact => ?_, fun _ => ⟨rfl, _, rfl, ?_⟩⟩
       · simp at hact
       · simp only [List.length_take]
         omega)
    | split at h
    | split at hh
    | (rename_i hh
       first
       | exact Option.noConfusion hh
       | (rw [Option.some.injEq] at hh
          rw [← hh] at h
          clear hh)
       | split at hh)

set_option maxHeartbeats 1000000 in
theorem normalDecision_cases (env : SearchEnv) (cfg : ResolverConfig)
    (raw_q : String) (city_id context_url : Option String) (d : ResolveResponse)
    (h : normalDecision env cfg raw_q city_id context_url = d) :
    (d.action = "serp" → d.url = some (build_serp_url raw_q city_id none context_url)) ∧
    (d.action = "disambiguate" →
      ∃ l, d.candidates = some l ∧ 2 ≤ l.length ∧ d.reason = some "same_name" ∧
        ∀ e₁ ∈ l, ∀ e₂ ∈ l, e₁.entity_type = e₂.entity_type) := by
  unfold normalDecision scoreGapDecision at h
  dsimp only at h
  repeat'
    first
    | exact Option.noConfusion hh
    | (rw [Option.some.injEq] at hh
       rw [← hh] at h)
    | (rw [← h]
       refine ⟨fun _ => rfl, fun hact => ?_⟩
       simp at hact)
    | (rw [← h]
       refine ⟨fun hact => ?_, fun hact => ?_⟩
       · simp at hact
       · simp at hact)
    | (rw [← h]
       refine ⟨fun hact => ?_, fun _ => ⟨_, rfl, ?_, rfl, ?_⟩⟩
       · simp at hact
       · simp only [List.length_take]
         omega
       · intro e₁ he₁ e₂ he₂
         have h₁ := (List.mem_filter.mp (List.take_subset _ _ he₁)).2
         have h₂ := (List.mem_filter.mp (List.take_subset _ _ he₂)).2
         simp only [decide_eq_true_eq] at h₁ h₂
         rw [h₁.2, h₂.2])
    | split at h
    | split at hh
    | (rename_i hh
       first
       | exact Option.noConfusion hh
       | (rw [Option.some.injEq] at hh
          rw [← hh] at h)
       | split at hh)

/-- `build_serp_url` with no `qid`, written as one flat string: the base
`/search?q=` part followed by the optional `&city_id=` and `&context_url=`
parameters. -/
theorem build_serp_url_form (q : String) (city_id context_url : Option String) :
    build_serp_url q city_id none context_url =
      "/search?q=" ++ quote_plus q ++
        (if optTruthy city_id then "&city_id=" ++ quote_plus (city_id.getD "") else "") ++
        (if optTruthy context_url then "&context_url=" ++ quote_plus (context_url.getD "") else "") := by
  unfold build_serp_url
  dsimp only
  rw [if_neg (by decide : ¬ optTruthy (none : Option String) = true)]
  split <;> split <;> simp [String.append_assoc, String.append_empty]

set_option maxHeartbeats 1000000 in
/-- C1: for every query and optional city, whenever the decision returned by
`resolve` has `action = "serp"`, its `url` field is non-null and is the SERP
URL `/search?q=<percent-encoded query>`, optionally followed by `&city_id=`
and `&context_url=` parameters. -/
theorem serp_url_invariant (env : SearchEnv) (cfg : ResolverConfig) (q : String)
    (city_id context_url : Option String)
    (h : (resolve env cfg q city_id context_url).action = "serp") :
    (resolve env cfg q city_id context_url).url =
      some ("/search?q=" ++ quote_plus q ++
        (if optTruthy city_id then "&city_id=" ++ quote_plus (city_id.getD "") else "") ++
        (if optTruthy context_url then "&context_url=" ++ quote_plus (context_url.getD "") else "")) := by
  rw [← build_serp_url_form]
  unfold resolve at h ⊢
  cases hp : pathDecision env q with
  | some d0 =>
    simp only [hp] at h
    have hr := pathDecision_redirect env q d0 hp
    rw [hr] at h
    exact absurd h (by decide)
  | none =>
    simp only [hp] at h ⊢
    unfold resolveParsed at h ⊢
    dsimp only at h ⊢
    cases hpi : pageIntentStep env (parse_query q) q city_id with
    | some d1 =>
      simp only [hpi] at h
      rcases pageIntentStep_cases env (parse_query q) q city_id d1 hpi with hr | ⟨hr, -, -⟩ <;>
        (rw [hr] at h; exact absurd h (by decide))
    | none =>
      simp only [hpi] at h ⊢
      cases hb : builderStep env (parse_query q) q city_id with
      | some d2 =>
        simp only [hb] at h
        have hr := builderStep_redirect env (parse_query q) q city_id d2 hb
        rw [hr] at h
        exact absurd h (by decide)
      | none =>
        simp only [hb] at h ⊢
        by_cases hch : is_constraint_heavy q = true
        · rw [if_pos hch] at h ⊢
          exact (constraintDecision_cases env (parse_query q) q city_id context_url _ rfl).1 h
        · rw [if_neg hch] at h ⊢
          exact (normalDecision_cases env cfg q city_id context_url _ rfl).1 h

def envC1W : SearchEnv :=
  { redirects := fun _ => none, search := fun _ _ _ _ => [], lookup := fun _ => none }

set_option maxHeartbeats 4000000 in
theorem serp_url_invariant_witness :
    (resolve envC1W {} "x" none none).action = "serp" ∧
    (resolve envC1W {} "x" none none).url =
      some ("/search?q=" ++ quote_plus "x" ++
        (if optTruthy (none : Option String) then
          "&city_id=" ++ quote_plus ((none : Option String).getD "") else "") ++
        (if optTruthy (none : Option String) then
          "&context_url=" ++ quote_plus ((none : Option String).getD "") else "")) :=
  ⟨by decide, serp_url_invariant envC1W {} "x" none none (by decide)⟩

def hC2city : Hit :=
  { source := { id := some "c_pune", entity_type := some "city", name := some "Pune",
                city_id := some "city_a", canonical_url := some "/pune" },
    score := some 10 }

def hC2loc : Hit :=
  { source := { id := some "l_pune", entity_type := some "locality", name := some "Pune",
                city_id := some "city_b", canonical_url := some "/x/pune" },
    score := some 9 }

def envC2 : SearchEnv :=
  { redirects := fun _ => none,
    search := fun _ _ _ types => match types with | none => [hC2city, hC2loc] | some _ => [],
    lookup := fun _ => none }

set_option maxHeartbeats 4000000 in
/-- C2 counterexample: on the constraint-heavy query `"2 bhk in pune"` with a
city and a locality both named Pune in the index, `resolve` returns a
disambiguate decision whose two candidates have different entity types
(`city` vs `locality`): the `constraint_heavy_same_name` branch filters
location candidates by name only, not by entity type. -/
theorem disambiguate_mixed_types_cex :
    (resolve envC2 {} "2 bhk in pune" none none).action = "disambiguate" ∧
    (resolve envC2 {} "2 bhk in pune" none none).candidates =
      some [hit_to_entity hC2city false, hit_to_entity hC2loc false] ∧
    (hit_to_entity hC2city false).entity_type ≠ (hit_to_entity hC2loc false).entity_type := by
  refine ⟨rfl, rfl, by decide⟩

set_option maxHeartbeats 1000000 in
/-- C2 (amended): whenever the decision returned by `resolve` has
`action = "disambiguate"` (with a search backend that honors its
`entity_types` filter), its candidates list is present with length at
least 2, and all candidates share the same entity type unless the
decision comes from the constraint-heavy branch (reason
`constraint_heavy_same_name`), which selects location candidates by
normalized name only and may mix entity types. -/
theorem disambiguate_candidates_invariant (env : SearchEnv) (cfg : ResolverConfig)
    (q : String) (city_id context_url : Option String)
    (hts : ∀ qs n c ts, ∀ hit ∈ env.search qs n c (some ts),
      (hit_to_entity hit false).entity_type ∈ ts)
    (h : (resolve env cfg q city_id context_url).action = "disambiguate") :
    ∃ l, (resolve env cfg q city_id context_url).candidates = some l ∧ 2 ≤ l.length ∧
      ((resolve env cfg q city_id context_url).reason ≠ some "constraint_heavy_same_name" →
        ∀ e₁ ∈ l, ∀ e₂ ∈ l, e₁.entity_type = e₂.entity_type) := by
  unfold resolve at h ⊢
  cases hp : pathDecision env q with
  | some d0 =>
    simp only [hp] at h
    have hr := pathDecision_redirect env q d0 hp
    rw [hr] at h
    exact absurd h (by decide)
  | none =>
    simp only [hp] at h ⊢
    unfold resolveParsed at h ⊢
    dsimp only at h ⊢
    cases hpi : pageIntentStep env (parse_query q) q city_id with
    | some d1 =>
      simp only [hpi] at h ⊢
      rcases pageIntentStep_types env (parse_query q) q city_id d1 hts hpi with
        hr | ⟨-, -, l, hcand, hlen, hsame⟩
      · rw [hr] at h
        exact absurd h (by decide)
      · exact ⟨l, hcand, hlen, fun _ => hsame⟩
    | none =>
      simp only [hpi] at h ⊢
      cases hb : builderStep env (parse_query q) q city_id with
      | some d2 =>
        simp only [hb] at h
        have hr := builderStep_redirect env (parse_query q) q city_id d2 hb
        rw [hr] at h
        exact absurd h (by decide)
      | none =>
        simp only [hb] at h ⊢
        by_cases hch : is_constraint_heavy q = true
        · rw [if_pos hch] at h ⊢
          rcases (constraintDecision_cases env (parse_query q) q city_id context_url _ rfl).2 h with
            ⟨hreason, l, hcand, hlen⟩
          exact ⟨l, hcand, hlen, fun hne => absurd hreason hne⟩
        · rw [if_neg hch] at h ⊢
          rcases (normalDecision_cases env cfg q city_id context_url _ rfl).2 h with
            ⟨l, hcand, hlen, hreason, hsame⟩
          exact ⟨l, hcand, hlen, fun _ => hsame⟩

def hC2a : Hit :=
  { source := { id := some "c1", entity_type := some "city", name := some "Pune",
                city_id := some "ca", canonical_url := some "/a" },
    score := some 10 }

def hC2b : Hit :=
  { source := { id := some "c2", entity_type := some "city", name := some "Pune",
                city_id := some "cb", canonical_url := some "/b" },
    score := some 9 }

def envC2W : SearchEnv :=
  { redirects := fun _ => none,
    search := fun _ _ _ types => match types with | none => [hC2a, hC2b] | some _ => [],
    lookup := fun _ => none }

set_option maxHeartbeats 4000000 in
theorem disambiguate_candidates_invariant_witness :
    (resolve envC2W {} "pune" none none).action = "disambiguate" ∧
    ∃ l, (resolve envC2W {} "pune" none none).candidates = some l ∧ 2 ≤ l.length ∧
      ((resolve envC2W {} "pune" none none).reason ≠ some "constraint_heavy_same_name" →
        ∀ e₁ ∈ l, ∀ e₂ ∈ l, e₁.entity_type = e₂.entity_type) :=
  ⟨by decide,
   disambiguate_candidates_invariant envC2W {} "pune" none none
     (fun qs n c ts hit hmem => absurd hmem (List.not_mem_nil hit))
     (by decide)⟩

def envC7M : SearchEnv :=
  { redirects := fun _ => none, search := fun _ _ _ _ => [], lookup := fun _ => none }

set_option maxHeartbeats 4000000 in
/-- C7 counterexample: the canonical `resolve` of `backend/app/main.py` has no
empty-query branch.  The all-whitespace query `"   "` normalizes to the empty
query, yet `resolve` processes it like any other query and, with an index
returning no entities, returns a serp decision with reason `no_results` -
never reason `empty`. -/
theorem resolve_empty_query_cex :
    normalize_q (some "   ") = "" ∧
    (resolve envC7M {} "   " none none).action = "serp" ∧
    (resolve envC7M {} "   " none none).reason = some "no_results" ∧
    (resolve envC7M {} "   " none none).reason ≠ some "empty" := by
  refine ⟨rfl, rfl, rfl, by decide⟩
